import Mathlib

/-!
Verification development for the SMC (Smart Money Concepts) analysis engine
of the BITatPRICE repository (`src/services/smc.ts`).

The engine is a pure, synchronous pipeline over OHLC candles.  We embed it
shallowly: JavaScript numbers are modelled as exact rationals (ℚ); note that
JavaScript division by zero yields NaN/Infinity, which fails every `>=`/`<=`
guard in the code, and ℚ division by zero yields 0, which fails the same
guards (all thresholds compared against are positive), so the two semantics
agree on every branch the engine takes.  Arrays are lists, mutation is
replaced by explicit state passing, and the `T | {error}` union return is an
`Except`.  The global settings singleton (`getSettings()`) is threaded as an
explicit parameter; within one `analyze` call every internal read observes
the same value, so this is behaviour-preserving.  `Array.prototype.sort`
with a consistent comparator is required (ES2019+) to be a stable sort, so
it is modelled by `List.insertionSort`, which is also stable.
-/

/-- One OHLC candle, `{t, o, h, l, c}` from `api.ts`.  The engine reads only
`o`, `h`, `l`, `c`; the timestamp is carried for completeness. -/
structure Candle where
  t : ℤ
  o : ℚ
  h : ℚ
  l : ℚ
  c : ℚ
deriving DecidableEq, Repr, Inhabited

/-- `'high' | 'low'` tag of a swing point. -/
inductive SwingType where
  | high
  | low
deriving DecidableEq, Repr, Inhabited

/-- `SwingPoint` interface: `{type, price, index}`. -/
structure SwingPoint where
  type : SwingType
  price : ℚ
  index : ℕ
deriving DecidableEq, Repr, Inhabited

/-- `'STRONG' | 'MODERATE' | 'WEAK'` strength band. -/
inductive Strength where
  | STRONG
  | MODERATE
  | WEAK
deriving DecidableEq, Repr, Inhabited

/-- `'FRESH' | 'RECENT' | 'OLD'` age band. -/
inductive Age where
  | FRESH
  | RECENT
  | OLD
deriving DecidableEq, Repr, Inhabited

/-- `'BULLISH' | 'BEARISH' | 'SIDEWAYS'` market bias. -/
inductive Bias where
  | BULLISH
  | BEARISH
  | SIDEWAYS
deriving DecidableEq, Repr, Inhabited

/-- `EnhancedZone` interface.  The optional `confluence?` flag is modelled as
a `Bool` that starts `false` (JS `undefined` is falsy everywhere the flag is
read) and is only ever set to `true` by the confluence enhancement pass. -/
structure EnhancedZone where
  low : ℚ
  high : ℚ
  strength : Strength
  age : Age
  distance : ℚ
  tested : Bool
  formationIndex : ℕ
  confluence : Bool := false
deriving DecidableEq, Repr, Inhabited

/-- `TradePlan` interface. -/
structure TradePlan where
  title : String
  entry : ℚ
  target : ℚ
  stop : ℚ
  riskReward : ℚ
  explanation : String
  strength : Strength
  age : Age
deriving DecidableEq, Repr, Inhabited

/-- `MarketStructure` interface.  `lastEvent?` is a string in TS (set to
`'BOS'`, `'CHoCH'` or `''` on every constructed value), `breakLevel?`,
`majorHigh?`, `majorLow?` are optional. -/
structure MarketStructure where
  bias : Bias
  lastEvent : String
  breakLevel : Option ℚ
  majorHigh : Option SwingPoint
  majorLow : Option SwingPoint
  probability : ℚ
  strength : Strength
deriving DecidableEq, Repr, Inhabited

/-- `ConfluenceZone` interface; `type` is one of
`'fibonacci' | 'historical_sr' | 'multiple_zones'`, kept as a string. -/
structure ConfluenceZone where
  type : String
  level : ℚ
  strength : Strength
  description : String
deriving DecidableEq, Repr, Inhabited

/-- `DebugInfo` interface. -/
structure DebugInfo where
  totalZonesFound : ℕ
  zonesFiltered : ℕ
  searchRange : ℕ
  profileUsed : String
  testedZones : ℕ
  untestedZones : ℕ
  averageZoneDistance : ℚ
deriving DecidableEq, Repr, Inhabited

/-- Wyckoff event tags. -/
inductive WyckoffEventType where
  | PS
  | SC
  | ST
  | BC
  | Spring
  | UpThrust
  | LPS
  | LPSY
  | PSY
deriving DecidableEq, Repr, Inhabited

/-- `WyckoffEvent` interface (`volume?` is always set where events are built). -/
structure WyckoffEvent where
  type : WyckoffEventType
  price : ℚ
  index : ℕ
  volume : ℚ
  confidence : ℚ
deriving DecidableEq, Repr, Inhabited

/-- `'accumulation' | 'distribution'` schema tag. -/
inductive SchemaType where
  | accumulation
  | distribution
deriving DecidableEq, Repr, Inhabited

/-- Wyckoff phase label `'A' | 'B' | 'C' | 'D' | 'E'`. -/
inductive PhaseLabel where
  | A
  | B
  | C
  | D
  | E
deriving DecidableEq, Repr, Inhabited

/-- `WyckoffPhase` interface. -/
structure WyckoffPhase where
  type : SchemaType
  phase : PhaseLabel
  events : List WyckoffEvent
  confidence : ℚ
  tradingOpportunity : Bool
  rangeHigh : ℚ
  rangeLow : ℚ
  currentPhaseDescription : String
deriving DecidableEq, Repr, Inhabited

/-- The `rangeAnalysis` record nested in `WyckoffAnalysis`. -/
structure RangeAnalysis where
  rangeHigh : ℚ
  rangeLow : ℚ
  duration : ℕ
  strength : Strength
deriving DecidableEq, Repr, Inhabited

/-- `WyckoffAnalysis` interface. -/
structure WyckoffAnalysis where
  isWyckoffPattern : Bool
  currentPhase : Option WyckoffPhase
  tradePlans : List TradePlan
  rangeAnalysis : RangeAnalysis
deriving DecidableEq, Repr, Inhabited

/-- `SMCAnalysis extends MarketStructure`. -/
structure SMCAnalysis extends MarketStructure where
  timeframe : String
  currentPrice : ℚ
  buyPlans : List TradePlan
  sellPlans : List TradePlan
  demandZones : List EnhancedZone
  supplyZones : List EnhancedZone
  bullishFVGs : List EnhancedZone
  bearishFVGs : List EnhancedZone
  confluences : Option (List ConfluenceZone)
  debugInfo : Option DebugInfo
  wyckoffAnalysis : Option WyckoffAnalysis
deriving DecidableEq, Repr, Inhabited

/-- Trading profile, `'scalp' | 'balanced' | 'swing'` from the settings. -/
inductive Profile where
  | scalp
  | balanced
  | swing
deriving DecidableEq, Repr, Inhabited

/-- The slice of the settings collaborator the engine reads. -/
structure Settings where
  tradingProfile : Profile
  debugMode : Bool
deriving DecidableEq, Repr, Inhabited

/-- The `'buy' | 'sell'` argument of `_createMultipleTradePlans`. -/
inductive PlanSide where
  | buy
  | sell
deriving DecidableEq, Repr, Inhabited

/-- The engine's `{error: string}` returns, as a tagged type.  The TS code
uses three distinct message templates; we keep the timeframe payload of the
two `analyze`-level messages. -/
inductive AnalyzeError where
  | insufficientData (timeframe : String)
  | insufficientSwings (timeframe : String)
  | indeterminateStructure
deriving DecidableEq, Repr, Inhabited

instance {ε α : Type} [DecidableEq ε] [DecidableEq α] : DecidableEq (Except ε α)
  | .error a, .error b =>
    if h : a = b then .isTrue (by rw [h]) else .isFalse (by simp [h])
  | .error _, .ok _ => .isFalse (by simp)
  | .ok _, .error _ => .isFalse (by simp)
  | .ok a, .ok b =>
    if h : a = b then .isTrue (by rw [h]) else .isFalse (by simp [h])

/-- JS `String.prototype.includes`: substring test. -/
def strIncludes (s pat : String) : Bool :=
  (List.range (s.data.length + 1)).any (fun k => pat.data.isPrefixOf (s.data.drop k))

/-- JS `Number(x.toFixed(2))`: rounding to two decimal places. -/
def roundTo2 (q : ℚ) : ℚ := (round (q * 100) : ℤ) / 100

/-- `Math.abs(i - j)` on indices. -/
def natDist (i j : ℕ) : ℕ := ((i : ℤ) - (j : ℤ)).natAbs

/-- Decimal rendering of a rational for the display-only parts of plan
explanation strings (the TS code uses `toFixed`; no analysed property
depends on the text of these strings). -/
def ratStr (q : ℚ) : String := toString q

/-- `strengthOrder = { STRONG: 3, MODERATE: 2, WEAK: 1 }`. -/
def strengthOrder : Strength → ℕ
  | .STRONG => 3
  | .MODERATE => 2
  | .WEAK => 1

/-- The lookback table of `analyze`:
`{'15m': 3, '30m': 4, '1h': 5, '4h': 6, '1d': 8}`, defaulting to 5
(`lookbackMap[timeframe] || 5`). -/
def lookbackFor (timeframe : String) : ℕ :=
  if timeframe = "15m" then 3
  else if timeframe = "30m" then 4
  else if timeframe = "1h" then 5
  else if timeframe = "4h" then 6
  else if timeframe = "1d" then 8
  else 5

/-- The window `candles.slice(i - lookback, i + lookback + 1)` used by
`_findSwingPoints`. -/
def windowAt (candles : List Candle) (lookback i : ℕ) : List Candle :=
  (candles.drop (i - lookback)).take (i + lookback + 1 - (i - lookback))

/-- The swing points `_findSwingPoints` pushes at loop index `i` (a high
candidate first, then a low candidate, exactly as the two `push` calls). -/
def swingsAt (candles : List Candle) (lookback i : ℕ) : List SwingPoint :=
  if lookback ≤ i ∧ i + lookback < candles.length then
    let ci := candles.getD i default
    let slice := windowAt candles lookback i
    let isHigh := slice.all (fun c => c.h ≤ ci.h)
    let isLow := slice.all (fun c => ci.l ≤ c.l)
    (if isHigh then [⟨.high, ci.h, i⟩] else []) ++
      (if isLow then [⟨.low, ci.l, i⟩] else [])
  else []

/-- `_findSwingPoints(candles, lookback)`: the loop runs `i` from `lookback`
to `candles.length - lookback - 1`, comparing `candles[i]` non-strictly
against every candle of the symmetric window. -/
def _findSwingPoints (candles : List Candle) (lookback : ℕ) : List SwingPoint :=
  ((List.range candles.length).map (swingsAt candles lookback)).flatten

/-- `_calculateProbability(bias, event)`. -/
def _calculateProbability (bias : Bias) (event : String) : ℚ :=
  if event = "BOS" then
    if bias = .SIDEWAYS then 60 else 87
  else if event = "CHoCH" then 74
  else 52

/-- `_calculateStrength(probability, event, swingCount)`. -/
def _calculateStrength (probability : ℚ) (event : String) (swingCount : ℕ) : Strength :=
  let s1 : ℚ := if 85 ≤ probability then 3 else if 70 ≤ probability then 2 else 1
  let s2 : ℚ := if event = "BOS" then 2 else if event = "CHoCH" then 1 else 0
  let s3 : ℚ := if 8 ≤ swingCount then 1 else if 6 ≤ swingCount then 0.5 else 0
  let strengthScore := s1 + s2 + s3
  if 5 ≤ strengthScore then .STRONG
  else if 3 ≤ strengthScore then .MODERATE
  else .WEAK

/-- `_findMarketStructure(swings)`.

Note the destructuring in the source:
`const [lastHigh, prevHigh] = highs.slice(-2)` binds `lastHigh` to the
*earlier* of the two most recent highs (element 0 of the two-element slice)
and `prevHigh` to the *most recent* one, and likewise for the lows; the
embedding reproduces this binding order exactly. -/
def _findMarketStructure (swings : List SwingPoint) :
    Except AnalyzeError MarketStructure :=
  let highs := swings.filter (fun s => s.type = .high)
  let lows := swings.filter (fun s => s.type = .low)
  if highs.length < 2 ∨ lows.length < 2 then
    .error .indeterminateStructure
  else
    let lastHigh := (highs.drop (highs.length - 2)).getD 0 default
    let prevHigh := (highs.drop (highs.length - 2)).getD 1 default
    let lastLow := (lows.drop (lows.length - 2)).getD 0 default
    let prevLow := (lows.drop (lows.length - 2)).getD 1 default
    if prevHigh.price < lastHigh.price ∧ prevLow.price < lastLow.price then
      let probability := _calculateProbability .BULLISH "BOS"
      .ok ⟨.BULLISH, "BOS", some prevHigh.price, some lastHigh, some prevLow,
        probability, _calculateStrength probability "BOS" swings.length⟩
    else if lastLow.price < prevLow.price ∧ lastHigh.price < prevHigh.price then
      let probability := _calculateProbability .BEARISH "BOS"
      .ok ⟨.BEARISH, "BOS", some prevLow.price, some prevHigh, some lastLow,
        probability, _calculateStrength probability "BOS" swings.length⟩
    else if lastLow.price < prevLow.price ∧ prevLow.index < lastHigh.index then
      let probability := _calculateProbability .BEARISH "CHoCH"
      .ok ⟨.BEARISH, "CHoCH", some prevLow.price, some lastHigh, some lastLow,
        probability, _calculateStrength probability "CHoCH" swings.length⟩
    else if prevHigh.price < lastHigh.price ∧ prevHigh.index < lastLow.index then
      let probability := _calculateProbability .BULLISH "CHoCH"
      .ok ⟨.BULLISH, "CHoCH", some prevHigh.price, some lastHigh, some lastLow,
        probability, _calculateStrength probability "CHoCH" swings.length⟩
    else
      let probability := _calculateProbability .SIDEWAYS ""
      .ok ⟨.SIDEWAYS, "", none, some lastHigh, some lastLow,
        probability, _calculateStrength probability "" swings.length⟩

/-- `_calculateZoneStrength(candle, currentPrice, candles, index)` (the last
two parameters are unused by the body, as in the source). -/
def _calculateZoneStrength (candle : Candle) (currentPrice : ℚ)
    (candles : List Candle) (index : ℕ) : Strength :=
  let zoneSize := |candle.h - candle.l| / currentPrice * 100
  let distance := |currentPrice - (candle.h + candle.l) / 2| / currentPrice * 100
  let bodySize := |candle.c - candle.o| / (candle.h - candle.l)
  let s1 : ℕ := if zoneSize < 0.5 then 3 else if zoneSize < 1 then 2 else 1
  let s2 : ℕ := if distance < 2 then 3 else if distance < 5 then 2 else 1
  let s3 : ℕ := if 0.7 < bodySize then 2 else if 0.5 < bodySize then 1 else 0
  let score := s1 + s2 + s3
  if 6 ≤ score then .STRONG else if 4 ≤ score then .MODERATE else .WEAK

/-- `_calculateFVGStrength(low, high, currentPrice)`. -/
def _calculateFVGStrength (low high currentPrice : ℚ) : Strength :=
  let gapSize := |high - low| / currentPrice * 100
  let distance := |currentPrice - (high + low) / 2| / currentPrice * 100
  let s1 : ℕ := if 1 < gapSize then 3 else if 0.5 < gapSize then 2 else 1
  let s2 : ℕ := if distance < 3 then 2 else if distance < 7 then 1 else 0
  let score := s1 + s2
  if 4 ≤ score then .STRONG else if 2 ≤ score then .MODERATE else .WEAK

/-- `_calculateAge(formationIndex, totalCandles)`. -/
def _calculateAge (formationIndex totalCandles : ℕ) : Age :=
  let candlesAgo := totalCandles - formationIndex
  if candlesAgo ≤ 10 then .FRESH
  else if candlesAgo ≤ 25 then .RECENT
  else .OLD

/-- `_isZoneTested(zone, candles, formationIndex)` with the trading profile
passed explicitly (the source reads it from the settings singleton).  The
source counts `validTests` but returns `true` as soon as the counter reaches
1, so the loop is an existential scan, modelled by `List.any`.  The function
is reached only for zones built from candles with `h > l` (the
body-percentage filter rejects `h ≤ l`), so the division by `zoneHeight`
matches the JS semantics on all reachable inputs. -/
def _isZoneTested (zone : Candle) (candles : List Candle) (formationIndex : ℕ)
    (profile : Profile) : Bool :=
  let pt0 : ℚ := if profile = .swing then 0.25 else if profile = .scalp then 0.1 else 0.2
  let minReactionCandles : ℕ := if profile = .swing then 1 else 0
  let zoneHeight := zone.h - zone.l
  let ageInCandles := candles.length - formationIndex
  let penetrationThreshold := if 50 < ageInCandles then pt0 * 1.5 else pt0
  (List.range' (formationIndex + 1)
      (candles.length - minReactionCandles - (formationIndex + 1))).any fun i =>
    let candle := candles.getD i default
    let overlap := min candle.h zone.h - max candle.l zone.l
    decide (0 < overlap) &&
      (decide (penetrationThreshold ≤ overlap / zoneHeight) &&
        (decide (minReactionCandles = 0) ||
          (List.range' 1 minReactionCandles).any fun j =>
            decide (i + j < candles.length) &&
              (let nextCandle := candles.getD (i + j) default
               (decide (zone.l < zone.h) && decide (nextCandle.o < nextCandle.c)) ||
                 (decide (zone.h < zone.l) && decide (nextCandle.c < nextCandle.o)))))

/-- `_isFVGTested(low, high, candles, formationIndex)`. -/
def _isFVGTested (low high : ℚ) (candles : List Candle) (formationIndex : ℕ) : Bool :=
  (List.range' (formationIndex + 1) (candles.length - (formationIndex + 1))).any fun i =>
    let candle := candles.getD i default
    decide (candle.l ≤ high) && decide (low ≤ candle.h)

/-- `_hasStrongReaction(candles, index)`. -/
def _hasStrongReaction (candles : List Candle) (index : ℕ) : Bool :=
  if index < 2 ∨ candles.length ≤ index + 2 then false
  else
    let currentCandle := candles.getD index default
    let nextCandle := candles.getD (index + 1) default
    let nextNextCandle := candles.getD (index + 2) default
    let strongBullishReaction :=
      decide (nextCandle.o < nextCandle.c) && decide (nextNextCandle.o < nextNextCandle.c) &&
        decide (currentCandle.h < nextCandle.c)
    let strongBearishReaction :=
      decide (nextCandle.c < nextCandle.o) && decide (nextNextCandle.c < nextNextCandle.o) &&
        decide (nextCandle.c < currentCandle.l)
    strongBullishReaction || strongBearishReaction

/-- `_getAdaptiveSearchRange(profile, timeframe, totalCandles)`. -/
def _getAdaptiveSearchRange (profile : Profile) (timeframe : String)
    (totalCandles : ℕ) : ℕ :=
  let baseRange : ℕ :=
    match profile with
    | .scalp =>
      if timeframe = "15m" then 50 else if timeframe = "30m" then 75
      else if timeframe = "1h" then 100 else if timeframe = "4h" then 150
      else if timeframe = "1d" then 200 else 200
    | .balanced =>
      if timeframe = "15m" then 100 else if timeframe = "30m" then 150
      else if timeframe = "1h" then 200 else if timeframe = "4h" then 300
      else if timeframe = "1d" then 400 else 200
    | .swing =>
      if timeframe = "15m" then 200 else if timeframe = "30m" then 300
      else if timeframe = "1h" then 400 else if timeframe = "4h" then 500
      else if timeframe = "1d" then 600 else 200
  min baseRange (totalCandles - 1)

/-- The name string of a profile, as stored in `DebugInfo.profileUsed`. -/
def profileName : Profile → String
  | .scalp => "scalp"
  | .balanced => "balanced"
  | .swing => "swing"

/-- The demand-zone candidate `_findEnhancedPointsOfInterest` pushes at loop
index `i`, if any. -/
def demandZoneAt (candles : List Candle) (currentPrice fib50 fib618 fib786 : ℚ)
    (isAggressive : Bool) (minBodyPercentage : ℚ) (profile : Profile) (i : ℕ) :
    Option EnhancedZone :=
  let candle := candles.getD i default
  let hasStrongRejection := _hasStrongReaction candles i
  let bodyPercentage := |candle.c - candle.o| / (candle.h - candle.l)
  let meetsReactionCriteria := isAggressive = true ∨ hasStrongRejection = true
  let inDemandArea := candle.h < fib618 ∨ (candle.l < fib50 ∧ candle.h < fib786)
  if inDemandArea ∧ candle.c < candle.o ∧ minBodyPercentage < bodyPercentage ∧
      meetsReactionCriteria then
    some { low := candle.l, high := candle.h,
           strength := _calculateZoneStrength candle currentPrice candles i,
           age := _calculateAge i candles.length,
           distance := |currentPrice - (candle.h + candle.l) / 2| / currentPrice * 100,
           tested := _isZoneTested candle candles i profile,
           formationIndex := i }
  else none

/-- The supply-zone candidate at loop index `i`, if any. -/
def supplyZoneAt (candles : List Candle) (currentPrice fib236 fib382 fib50 : ℚ)
    (isAggressive : Bool) (minBodyPercentage : ℚ) (profile : Profile) (i : ℕ) :
    Option EnhancedZone :=
  let candle := candles.getD i default
  let hasStrongRejection := _hasStrongReaction candles i
  let bodyPercentage := |candle.c - candle.o| / (candle.h - candle.l)
  let meetsReactionCriteria := isAggressive = true ∨ hasStrongRejection = true
  let inSupplyArea := fib382 < candle.l ∨ (fib50 < candle.h ∧ fib236 < candle.l)
  if inSupplyArea ∧ candle.o < candle.c ∧ minBodyPercentage < bodyPercentage ∧
      meetsReactionCriteria then
    some { low := candle.l, high := candle.h,
           strength := _calculateZoneStrength candle currentPrice candles i,
           age := _calculateAge i candles.length,
           distance := |currentPrice - (candle.h + candle.l) / 2| / currentPrice * 100,
           tested := _isZoneTested candle candles i profile,
           formationIndex := i }
  else none

/-- The bullish FVG candidate at loop index `i`, if any (`prevCandle` is
null at `i = 0`; `nextCandle` always exists inside the loop). -/
def bullishFVGAt (candles : List Candle) (currentPrice : ℚ) (i : ℕ) :
    Option EnhancedZone :=
  if 0 < i ∧ i + 1 < candles.length then
    let prevCandle := candles.getD (i - 1) default
    let nextCandle := candles.getD (i + 1) default
    if prevCandle.h < nextCandle.l then
      some { low := prevCandle.h, high := nextCandle.l,
             strength := _calculateFVGStrength prevCandle.h nextCandle.l currentPrice,
             age := _calculateAge i candles.length,
             distance := |currentPrice - (prevCandle.h + nextCandle.l) / 2| / currentPrice * 100,
             tested := _isFVGTested prevCandle.h nextCandle.l candles i,
             formationIndex := i }
    else none
  else none

/-- The bearish FVG candidate at loop index `i`, if any. -/
def bearishFVGAt (candles : List Candle) (currentPrice : ℚ) (i : ℕ) :
    Option EnhancedZone :=
  if 0 < i ∧ i + 1 < candles.length then
    let prevCandle := candles.getD (i - 1) default
    let nextCandle := candles.getD (i + 1) default
    if nextCandle.h < prevCandle.l then
      some { low := nextCandle.h, high := prevCandle.l,
             strength := _calculateFVGStrength nextCandle.h prevCandle.l currentPrice,
             age := _calculateAge i candles.length,
             distance := |currentPrice - (nextCandle.h + prevCandle.l) / 2| / currentPrice * 100,
             tested := _isFVGTested nextCandle.h prevCandle.l candles i,
             formationIndex := i }
    else none
  else none

/-- `_enhanceZonesWithConfluence(zones, fib236, fib50, fib618, fib786)`:
sets the `confluence` flag on zones whose midpoint lies within 1% of a
Fibonacci level. -/
def _enhanceZonesWithConfluence (zones : List EnhancedZone)
    (fib236 fib50 fib618 fib786 : ℚ) : List EnhancedZone :=
  let fibLevels := [fib236, fib50, fib618, fib786]
  zones.map fun zone =>
    let zoneMid := (zone.high + zone.low) / 2
    let nearFib := fibLevels.any fun fibLevel =>
      decide (|zoneMid - fibLevel| / fibLevel ≤ 0.01)
    if nearFib then { zone with confluence := true } else zone

/-- The sort key of `sortByStrengthAndProximity`:
`strengthOrder[strength] + (confluence ? 2 : 0)`. -/
def zoneScore (z : EnhancedZone) : ℕ :=
  strengthOrder z.strength + (if z.confluence then 2 else 0)

/-- The order realised by the `sortByStrengthAndProximity` comparator:
higher score first, ties broken by smaller distance. -/
def zoneOrd (a b : EnhancedZone) : Prop :=
  zoneScore b < zoneScore a ∨ (zoneScore a = zoneScore b ∧ a.distance ≤ b.distance)

instance : DecidableRel zoneOrd := fun a b => by unfold zoneOrd; infer_instance

/-- `sortByStrengthAndProximity`: stable sort by the comparator, then
`.slice(0, 3)`. -/
def sortByStrengthAndProximity (zones : List EnhancedZone) : List EnhancedZone :=
  (zones.insertionSort zoneOrd).take 3

/-- The record returned by `_findEnhancedPointsOfInterest`. -/
structure PoisResult where
  demandZones : List EnhancedZone
  supplyZones : List EnhancedZone
  bullishFVGs : List EnhancedZone
  bearishFVGs : List EnhancedZone
  debugInfo : DebugInfo
deriving DecidableEq, Repr, Inhabited

/-- `_findEnhancedPointsOfInterest(candles, structure, currentPrice,
timeframe)`, with the settings passed explicitly.  The loop body is split
into the four per-index candidate functions above; the loop runs `i` from
`startSearch` to `candles.length - 2` and appends each candidate in index
order, which is exactly `List.filterMap` over the index range. -/
def _findEnhancedPointsOfInterest (candles : List Candle) (st : MarketStructure)
    (currentPrice : ℚ) (timeframe : String) (settings : Settings) : PoisResult :=
  match st.majorHigh, st.majorLow with
  | some majorHigh, some majorLow =>
    let profile := settings.tradingProfile
    let rangeStart := min majorLow.price majorHigh.price
    let rangeEnd := max majorLow.price majorHigh.price
    let fib50 := rangeStart + (rangeEnd - rangeStart) * 0.5
    let fib236 := rangeStart + (rangeEnd - rangeStart) * 0.236
    let fib382 := rangeStart + (rangeEnd - rangeStart) * 0.382
    let fib618 := rangeStart + (rangeEnd - rangeStart) * 0.618
    let fib786 := rangeStart + (rangeEnd - rangeStart) * 0.786
    let searchRange := _getAdaptiveSearchRange profile timeframe candles.length
    let startSearch := candles.length - searchRange
    let isAggressive := decide (profile = Profile.scalp)
    let minBodyPercentage : ℚ := if isAggressive then 0.4 else 0.5
    let idxs := List.range' startSearch (candles.length - 1 - startSearch)
    let demandZones := idxs.filterMap
      (demandZoneAt candles currentPrice fib50 fib618 fib786 isAggressive
        minBodyPercentage profile)
    let supplyZones := idxs.filterMap
      (supplyZoneAt candles currentPrice fib236 fib382 fib50 isAggressive
        minBodyPercentage profile)
    let bullishFVGs := idxs.filterMap (bullishFVGAt candles currentPrice)
    let bearishFVGs := idxs.filterMap (bearishFVGAt candles currentPrice)
    let allZones := demandZones ++ supplyZones ++ bullishFVGs ++ bearishFVGs
    let testedCount := (allZones.filter (fun z => z.tested)).length
    let totalZonesFound := allZones.length
    let avgDistance : ℚ :=
      if 0 < allZones.length then
        ((allZones.map (fun z => z.distance)).sum) / (allZones.length : ℚ)
      else 0
    let demandZones := _enhanceZonesWithConfluence demandZones fib236 fib50 fib618 fib786
    let supplyZones := _enhanceZonesWithConfluence supplyZones fib236 fib50 fib618 fib786
    let debugInfo : DebugInfo :=
      { totalZonesFound := totalZonesFound
        zonesFiltered := totalZonesFound - min totalZonesFound 12
        searchRange := searchRange
        profileUsed := profileName profile
        testedZones := testedCount
        untestedZones := totalZonesFound - testedCount
        averageZoneDistance := roundTo2 avgDistance }
    { demandZones := sortByStrengthAndProximity demandZones
      supplyZones := sortByStrengthAndProximity supplyZones
      bullishFVGs := sortByStrengthAndProximity bullishFVGs
      bearishFVGs := sortByStrengthAndProximity bearishFVGs
      debugInfo := debugInfo }
  | _, _ =>
    { demandZones := [], supplyZones := [], bullishFVGs := [], bearishFVGs := []
      debugInfo := { totalZonesFound := 0, zonesFiltered := 0, searchRange := 0,
                     profileUsed := "unknown", testedZones := 0, untestedZones := 0,
                     averageZoneDistance := 0 } }

/-- The per-profile configuration table of `_createMultipleTradePlans`. -/
structure ProfileConfig where
  minRR : ℚ
  maxRR : ℚ
  maxPlans : ℕ
  preferClose : Bool
  maxDistance : ℚ
  testedWeight : ℚ
deriving DecidableEq, Repr, Inhabited

/-- `profileConfig = { scalp: {...}, balanced: {...}, swing: {...} }`. -/
def profileConfig : Profile → ProfileConfig
  | .scalp => { minRR := 0.2, maxRR := 2.0, maxPlans := 5, preferClose := true,
                maxDistance := 5.0, testedWeight := 0.8 }
  | .balanced => { minRR := 0.5, maxRR := 4.0, maxPlans := 3, preferClose := false,
                   maxDistance := 10.0, testedWeight := 0.6 }
  | .swing => { minRR := 1.0, maxRR := 8.0, maxPlans := 2, preferClose := false,
                maxDistance := 20.0, testedWeight := 0.3 }

/-- `_calculateZoneScore(zone, config)`. -/
def _calculateZoneScore (zone : EnhancedZone) (config : ProfileConfig) : ℚ :=
  let s1 : ℚ := if zone.strength = .STRONG then 30
    else if zone.strength = .MODERATE then 20 else 10
  let s2 : ℚ := if zone.age = .FRESH then 20 else if zone.age = .RECENT then 15 else 5
  let s3 : ℚ := if config.preferClose then max 0 (20 - zone.distance * 2)
    else if 2 < zone.distance then 15 else 5
  let score := s1 + s2 + s3
  if zone.tested then score * config.testedWeight else score

/-- `_calculatePlanStrength(zone, riskReward)`. -/
def _calculatePlanStrength (zone : EnhancedZone) (riskReward : ℚ) : Strength :=
  let s1 : ℤ := if zone.strength = .STRONG then 3
    else if zone.strength = .MODERATE then 2 else 1
  let s2 : ℤ := if 3 ≤ riskReward then 3 else if 2 ≤ riskReward then 2
    else if 1 ≤ riskReward then 1 else 0
  let s3 : ℤ := if zone.distance < 2 then 2 else if zone.distance < 5 then 1 else 0
  let s4 : ℤ := if zone.tested then 1 else 0
  let score := s1 + s2 + s3 - s4
  if 6 ≤ score then .STRONG else if 4 ≤ score then .MODERATE else .WEAK

/-- The TS string literal of a strength band (used in plan titles). -/
def strengthName : Strength → String
  | .STRONG => "STRONG"
  | .MODERATE => "MODERATE"
  | .WEAK => "WEAK"

/-- Lower-case strength text used in explanation strings. -/
def strengthLower : Strength → String
  | .STRONG => "strong"
  | .MODERATE => "moderate"
  | .WEAK => "weak"

/-- Lower-case age text used in explanation strings. -/
def ageLower : Age → String
  | .FRESH => "fresh"
  | .RECENT => "recent"
  | .OLD => "old"

/-- `bias.toLowerCase()` used in explanation strings. -/
def biasLower : Bias → String
  | .BULLISH => "bullish"
  | .BEARISH => "bearish"
  | .SIDEWAYS => "sideways"

/-- Ascending-distance order used by `preferClose` profiles. -/
def zoneDistLE (a b : EnhancedZone) : Prop := a.distance ≤ b.distance

instance : DecidableRel zoneDistLE := fun a b => by unfold zoneDistLE; infer_instance

/-- Descending-zone-score order used by non-`preferClose` profiles. -/
def zoneScoreGE (cfg : ProfileConfig) (a b : EnhancedZone) : Prop :=
  _calculateZoneScore b cfg ≤ _calculateZoneScore a cfg

instance {cfg : ProfileConfig} : DecidableRel (zoneScoreGE cfg) := fun a b => by
  unfold zoneScoreGE; infer_instance

/-- The plan the buy `forEach` body of `_createMultipleTradePlans` pushes for
zone `zone` at position `index`, if the risk/reward filter admits it. -/
def mkBuyPlan (config : ProfileConfig) (bias : Bias)
    (majorHighPrice majorLowPrice : ℚ) (index : ℕ) (zone : EnhancedZone) :
    Option TradePlan :=
  let entryPrice := zone.high
  let stopPrice := zone.low
  let targetPrice :=
    if bias = .SIDEWAYS then
      entryPrice + (majorHighPrice - majorLowPrice) * 0.6
    else majorHighPrice
  let riskReward := (targetPrice - entryPrice) / (entryPrice - stopPrice)
  if config.minRR ≤ riskReward ∧ riskReward ≤ config.maxRR then
    let planStrength := _calculatePlanStrength zone riskReward
    let marketContext := if bias = .SIDEWAYS then "range-bound" else biasLower bias
    let explanation :=
      (if index = 0 then "Primary" else "Alternative") ++ " buy setup in a " ++
        marketContext ++ " market. Entry at demand zone (" ++
        strengthLower zone.strength ++ " strength, " ++ ageLower zone.age ++
        " formation) " ++ ratStr zone.distance ++ "% from current price. " ++
        (if zone.tested then "Zone previously tested." else "Fresh untested zone.") ++
        " R/R: " ++ ratStr riskReward
    some { title := "Buy Plan " ++ toString (index + 1) ++ " (" ++
             strengthName zone.strength ++ ")"
           entry := entryPrice, stop := stopPrice, target := targetPrice
           riskReward := riskReward, strength := planStrength
           age := zone.age, explanation := explanation }
  else none

/-- The plan the sell `forEach` body pushes, if admitted. -/
def mkSellPlan (config : ProfileConfig) (bias : Bias)
    (majorHighPrice majorLowPrice : ℚ) (index : ℕ) (zone : EnhancedZone) :
    Option TradePlan :=
  let entryPrice := zone.low
  let stopPrice := zone.high
  let targetPrice :=
    if bias = .SIDEWAYS then
      entryPrice - (majorHighPrice - majorLowPrice) * 0.6
    else majorLowPrice
  let riskReward := (entryPrice - targetPrice) / (stopPrice - entryPrice)
  if config.minRR ≤ riskReward ∧ riskReward ≤ config.maxRR then
    let planStrength := _calculatePlanStrength zone riskReward
    let marketContext := if bias = .SIDEWAYS then "range-bound" else biasLower bias
    let explanation :=
      (if index = 0 then "Primary" else "Alternative") ++ " sell setup in a " ++
        marketContext ++ " market. Entry at supply zone (" ++
        strengthLower zone.strength ++ " strength, " ++ ageLower zone.age ++
        " formation) " ++ ratStr zone.distance ++ "% from current price. " ++
        (if zone.tested then "Zone previously tested." else "Fresh untested zone.") ++
        " R/R: " ++ ratStr riskReward
    some { title := "Sell Plan " ++ toString (index + 1) ++ " (" ++
             strengthName zone.strength ++ ")"
           entry := entryPrice, stop := stopPrice, target := targetPrice
           riskReward := riskReward, strength := planStrength
           age := zone.age, explanation := explanation }
  else none

/-- `_createMultipleTradePlans(analysis, type)`, with the settings passed
explicitly.  The `type === 'buy'` and `type === 'sell'` guards select the
respective block.  Where the sideways-target computation dereferences the
*other* major swing (`majorLow.price` in the buy block, `majorHigh.price` in
the sell block) without a guard, we read it through `Option.getD default`;
`analyze` only calls this with both majors defined (proved below), so the
default is never observed from `analyze`. -/
def _createMultipleTradePlans (analysis : SMCAnalysis) (side : PlanSide)
    (settings : Settings) : List TradePlan :=
  let profile := settings.tradingProfile
  let config := profileConfig profile
  match side with
  | .buy =>
    match analysis.majorHigh with
    | some majorHigh =>
      if analysis.bias = .BULLISH ∨ analysis.bias = .SIDEWAYS then
        let validZones0 := analysis.demandZones.filter fun zone =>
          decide (zone.distance ≤ config.maxDistance) &&
            (!zone.tested || decide (0.4 < config.testedWeight))
        let validZones :=
          if validZones0.length = 0 then
            analysis.demandZones.filter fun zone =>
              decide (zone.distance ≤ config.maxDistance * 1.5)
          else validZones0
        let sorted :=
          if config.preferClose then validZones.insertionSort zoneDistLE
          else validZones.insertionSort (zoneScoreGE config)
        ((sorted.take config.maxPlans).enum).filterMap fun p =>
          mkBuyPlan config analysis.bias majorHigh.price
            ((analysis.majorLow.getD default).price) p.1 p.2
      else []
    | none => []
  | .sell =>
    match analysis.majorLow with
    | some majorLow =>
      if analysis.bias = .BEARISH ∨ analysis.bias = .SIDEWAYS then
        let validZones0 := analysis.supplyZones.filter fun zone =>
          decide (zone.distance ≤ config.maxDistance) &&
            (!zone.tested || decide (0.4 < config.testedWeight))
        let validZones :=
          if validZones0.length = 0 then
            analysis.supplyZones.filter fun zone =>
              decide (zone.distance ≤ config.maxDistance * 1.5)
          else validZones0
        let sorted :=
          if config.preferClose then validZones.insertionSort zoneDistLE
          else validZones.insertionSort (zoneScoreGE config)
        ((sorted.take config.maxPlans).enum).filterMap fun p =>
          mkSellPlan config analysis.bias
            ((analysis.majorHigh.getD default).price) majorLow.price p.1 p.2
      else []
    | none => []

/-- A historical support/resistance level found by `_findHistoricalSR`. -/
structure HistLevel where
  price : ℚ
  type : String
  strength : Strength
deriving DecidableEq, Repr, Inhabited

/-- Descending-strength order of `_findHistoricalSR`'s final sort. -/
def histOrd (a b : HistLevel) : Prop :=
  strengthOrder b.strength ≤ strengthOrder a.strength

instance : DecidableRel histOrd := fun a b => by unfold histOrd; infer_instance

/-- `_findHistoricalSR(candles)`. -/
def _findHistoricalSR (candles : List Candle) : List HistLevel :=
  let searchRange := min candles.length 200
  let startIndex := candles.length - searchRange
  let levels :=
    ((List.range' (startIndex + 10) (candles.length - 10 - (startIndex + 10))).map fun i =>
      let candle := candles.getD i default
      let touchCount :=
        ((List.range' (i + 1) (candles.length - (i + 1))).filter fun j =>
          let testCandle := candles.getD j default
          decide (|testCandle.h - candle.h| / candle.h ≤ 0.01) ||
            decide (|testCandle.l - candle.l| / candle.l ≤ 0.01)).length
      if 2 ≤ touchCount then
        let strength := if 4 ≤ touchCount then Strength.STRONG
          else if 3 ≤ touchCount then Strength.MODERATE else Strength.WEAK
        [⟨candle.h, "resistance", strength⟩, (⟨candle.l, "support", strength⟩ : HistLevel)]
      else []).flatten
  let uniqueLevels :=
    (levels.enum.filter fun p =>
      levels.findIdx? (fun l2 => decide (|l2.price - p.2.price| / p.2.price ≤ 0.005)) =
        some p.1).map Prod.snd
  (uniqueLevels.insertionSort histOrd).take 10

/-- `_detectConfluences(analysis, candles)`. -/
def _detectConfluences (analysis : SMCAnalysis) (candles : List Candle) :
    List ConfluenceZone :=
  match analysis.majorHigh, analysis.majorLow with
  | some majorHigh, some majorLow =>
    let rangeStart := min majorLow.price majorHigh.price
    let rangeEnd := max majorLow.price majorHigh.price
    let fibLevels : List (ℚ × String) :=
      [(rangeStart + (rangeEnd - rangeStart) * 0.236, "23.6%"),
       (rangeStart + (rangeEnd - rangeStart) * 0.382, "38.2%"),
       (rangeStart + (rangeEnd - rangeStart) * 0.5, "50%"),
       (rangeStart + (rangeEnd - rangeStart) * 0.618, "61.8%"),
       (rangeStart + (rangeEnd - rangeStart) * 0.786, "78.6%")]
    let fibConfs := fibLevels.filterMap fun fib =>
      let nearbyZones := (analysis.demandZones ++ analysis.supplyZones).filter fun zone =>
        let zoneMid := (zone.high + zone.low) / 2
        decide (|zoneMid - fib.1| / fib.1 ≤ 0.02)
      if 0 < nearbyZones.length then
        some { type := "fibonacci", level := fib.1
               strength := if 1 < nearbyZones.length then Strength.STRONG else .MODERATE
               description := "Fibonacci " ++ fib.2 ++ " confluence with " ++
                 toString nearbyZones.length ++ " zone(s)" }
      else none
    let historicalLevels := _findHistoricalSR candles
    let histConfs := historicalLevels.filterMap fun level =>
      let nearbyZones := (analysis.demandZones ++ analysis.supplyZones).filter fun zone =>
        let zoneMid := (zone.high + zone.low) / 2
        decide (|zoneMid - level.price| / level.price ≤ 0.015)
      if 0 < nearbyZones.length then
        some { type := "historical_sr", level := level.price
               strength := level.strength
               description := "Historical " ++ level.type ++ " level confluence" }
      else none
    (fibConfs ++ histConfs).take 5
  | _, _ => []

/-- `_calculateEventConfidence(eventType, candle, candles, index, rangeHigh,
rangeLow)`.  When `candle.h = candle.l` the JS `bodyRatio` is NaN and the
`> 0.6` test fails; in ℚ the ratio is 0 and the same test fails. -/
def _calculateEventConfidence (eventType : WyckoffEventType) (candle : Candle)
    (candles : List Candle) (index : ℕ) (rangeHigh rangeLow : ℚ) : ℚ :=
  let rangeSize := rangeHigh - rangeLow
  let volumeProxy := candle.h - candle.l
  let avgVolume :=
    (((candles.drop (index - 20)).take (index - (index - 20))).map
      (fun c => c.h - c.l)).sum / 20
  let c1 : ℚ := if avgVolume * 1.5 < volumeProxy then 0.2 else 0
  let c2 : ℚ := if avgVolume * 2 < volumeProxy then 0.1 else 0
  let bodySize := |candle.c - candle.o|
  let candleSize := candle.h - candle.l
  let c3 : ℚ := if 0.6 < bodySize / candleSize then 0.15 else 0
  let c4 : ℚ :=
    match eventType with
    | .Spring => if candle.o < candle.c then 0.15 else 0
    | .UpThrust => if candle.c < candle.o then 0.15 else 0
    | .LPS => if rangeLow + rangeSize * 0.1 < candle.l then 0.1 else 0
    | .LPSY => if candle.h < rangeHigh - rangeSize * 0.1 then 0.1 else 0
    | _ => 0
  min (0.5 + c1 + c2 + c3 + c4) 1.0

/-- The events the `_detectWyckoffEvents` loop body pushes at index `i`, in
push order (SC, BC, Spring, UpThrust, LPS, LPSY).  `prior` is the event list
accumulated before iteration `i`; the `hasSpringBefore`/`hasUpThrustBefore`
scans require `e.index < i`, so events pushed earlier in the same iteration
(all carrying index `i`) never match and scanning `prior` is exact. -/
def wyckoffEventsAt (candles : List Candle) (rangeHigh rangeLow rangeMid : ℚ)
    (prior : List WyckoffEvent) (i : ℕ) : List WyckoffEvent :=
  let candle := candles.getD i default
  let nextCandle := candles.getD (i + 1) default
  let volumeProxy := candle.h - candle.l
  let avgVolume :=
    (((candles.drop (i - 20)).take (i - (i - 20))).map (fun c => c.h - c.l)).sum / 20
  let isHighVolume := avgVolume * 1.5 < volumeProxy
  let sc :=
    if candle.l ≤ rangeLow * 1.02 ∧ candle.c < candle.o ∧ isHighVolume then
      [⟨.SC, candle.l, i, volumeProxy,
        _calculateEventConfidence .SC candle candles i rangeHigh rangeLow⟩]
    else []
  let bc :=
    if rangeHigh * 0.98 ≤ candle.h ∧ candle.o < candle.c ∧ isHighVolume then
      [(⟨.BC, candle.h, i, volumeProxy,
        _calculateEventConfidence .BC candle candles i rangeHigh rangeLow⟩ : WyckoffEvent)]
    else []
  let spring :=
    if candle.l < rangeLow ∧ rangeLow < candle.c ∧ candle.c < nextCandle.c then
      [(⟨.Spring, candle.l, i, volumeProxy,
        _calculateEventConfidence .Spring candle candles i rangeHigh rangeLow⟩ : WyckoffEvent)]
    else []
  let upThrust :=
    if rangeHigh < candle.h ∧ candle.c < rangeHigh ∧ nextCandle.c < candle.c then
      [(⟨.UpThrust, candle.h, i, volumeProxy,
        _calculateEventConfidence .UpThrust candle candles i rangeHigh rangeLow⟩ : WyckoffEvent)]
    else []
  let lps :=
    if 0 < i ∧ rangeLow < candle.l ∧ candle.l < rangeMid then
      if (prior.any fun e => decide (e.type = .Spring) && decide (e.index < i)) ∧
          candle.o < candle.c then
        [(⟨.LPS, candle.l, i, volumeProxy,
          _calculateEventConfidence .LPS candle candles i rangeHigh rangeLow⟩ : WyckoffEvent)]
      else []
    else []
  let lpsy :=
    if 0 < i ∧ candle.h < rangeHigh ∧ rangeMid < candle.h then
      if (prior.any fun e => decide (e.type = .UpThrust) && decide (e.index < i)) ∧
          candle.c < candle.o then
        [(⟨.LPSY, candle.h, i, volumeProxy,
          _calculateEventConfidence .LPSY candle candles i rangeHigh rangeLow⟩ : WyckoffEvent)]
      else []
    else []
  sc ++ bc ++ spring ++ upThrust ++ lps ++ lpsy

/-- Ascending-index order of the `.sort((a, b) => a.index - b.index)` call. -/
def eventIdxLE (a b : WyckoffEvent) : Prop := a.index ≤ b.index

instance : DecidableRel eventIdxLE := fun a b => by unfold eventIdxLE; infer_instance

/-- `_detectWyckoffEvents(candles, rangeHigh, rangeLow)`.  The final
duplicate removal keeps an event iff no *earlier element of the sorted
array* (kept or not) has the same type within 5 candles, exactly as the
`arr.slice(0, index).some(...)` scan. -/
def _detectWyckoffEvents (candles : List Candle) (rangeHigh rangeLow : ℚ) :
    List WyckoffEvent :=
  let rangeSize := rangeHigh - rangeLow
  let rangeMid := rangeLow + rangeSize * 0.5
  let raw := (List.range' 10 (candles.length - 20)).foldl
    (fun acc i => acc ++ wyckoffEventsAt candles rangeHigh rangeLow rangeMid acc i) []
  let ordered := (raw.filter fun e => decide ((0.6 : ℚ) ≤ e.confidence)).insertionSort eventIdxLE
  (ordered.enum.filter fun p =>
    !(ordered.take p.1).any fun prev =>
      decide (prev.type = p.2.type) && decide (natDist prev.index p.2.index ≤ 5)).map Prod.snd

/-- `_calculatePhaseConfidence(events, type)`. -/
def _calculatePhaseConfidence (events : List WyckoffEvent) (type : SchemaType) : ℚ :=
  if events.length = 0 then 0
  else
    let c1 := min ((events.length : ℚ) * 0.1) 0.3
    let avgEventConfidence := (events.map (fun e => e.confidence)).sum / (events.length : ℚ)
    let c2 := avgEventConfidence * 0.3
    let c3 : ℚ :=
      match type with
      | .accumulation =>
        (if events.any fun e => decide (e.type = .Spring) then (0.15 : ℚ) else 0) +
          (if events.any fun e => decide (e.type = .LPS) then (0.1 : ℚ) else 0)
      | .distribution =>
        (if events.any fun e => decide (e.type = .UpThrust) then (0.15 : ℚ) else 0) +
          (if events.any fun e => decide (e.type = .LPSY) then (0.1 : ℚ) else 0)
    min (0.4 + c1 + c2 + c3) 1.0

/-- `_determineWyckoffPhase(events, candles, rangeHigh, rangeLow,
currentPrice)` (the `candles`/`currentPrice` parameters are unused by the
body, as is the `latestEvents` local, exactly as in the source). -/
def _determineWyckoffPhase (events : List WyckoffEvent) (candles : List Candle)
    (rangeHigh rangeLow currentPrice : ℚ) : Option WyckoffPhase :=
  if events.length = 0 then none
  else
    let hasSpring := events.any fun e => decide (e.type = .Spring)
    let hasUpThrust := events.any fun e => decide (e.type = .UpThrust)
    let hasLPS := events.any fun e => decide (e.type = .LPS)
    let hasLPSY := events.any fun e => decide (e.type = .LPSY)
    let hasSC := events.any fun e => decide (e.type = .SC)
    let hasBC := events.any fun e => decide (e.type = .BC)
    if hasSpring || (hasSC && hasLPS) then
      let pdt : PhaseLabel × String × Bool :=
        if hasSpring && hasLPS then
          (.D, "Phase D: Evidence of readiness to move higher. Last Point of Support identified.", true)
        else if hasSpring then
          (.C, "Phase C: Spring detected. Testing for remaining supply.", true)
        else if hasSC then
          (.A, "Phase A: Selling climax detected. Stopping action in progress.", false)
        else
          (.B, "Phase B: Building of cause. Range development.", false)
      some { type := .accumulation, phase := pdt.1, events := events
             confidence := _calculatePhaseConfidence events .accumulation
             tradingOpportunity := pdt.2.2, rangeHigh := rangeHigh, rangeLow := rangeLow
             currentPhaseDescription := pdt.2.1 }
    else if hasUpThrust || (hasBC && hasLPSY) then
      let pdt : PhaseLabel × String × Bool :=
        if hasUpThrust && hasLPSY then
          (.D, "Phase D: Evidence of readiness to move lower. Last Point of Supply identified.", true)
        else if hasUpThrust then
          (.C, "Phase C: UpThrust detected. Testing for remaining demand.", true)
        else if hasBC then
          (.A, "Phase A: Buying climax detected. Stopping action in progress.", false)
        else
          (.B, "Phase B: Building of cause. Range development.", false)
      some { type := .distribution, phase := pdt.1, events := events
             confidence := _calculatePhaseConfidence events .distribution
             tradingOpportunity := pdt.2.2, rangeHigh := rangeHigh, rangeLow := rangeLow
             currentPhaseDescription := pdt.2.1 }
    else none

/-- `_generateWyckoffTradePlans(phase, currentPrice, rangeHigh, rangeLow)`
(the source also reads the settings singleton into an unused local, and
never uses `currentPrice`). -/
def _generateWyckoffTradePlans (phase? : Option WyckoffPhase)
    (currentPrice rangeHigh rangeLow : ℚ) : List TradePlan :=
  match phase? with
  | none => []
  | some phase =>
    if !phase.tradingOpportunity then []
    else
      let rangeSize := rangeHigh - rangeLow
      if phase.type = .accumulation ∧ (phase.phase = .C ∨ phase.phase = .D) then
        let ese : ℚ × ℚ × ℚ × String :=
          if phase.phase = .C then
            let springEvent := phase.events.find? fun e => decide (e.type = .Spring)
            (match springEvent with
              | some e => e.price * 1.005
              | none => rangeLow * 1.01,
             rangeLow * 0.995, rangeHigh,
             "Wyckoff Accumulation Phase C: Entry after Spring. Market has tested and found support below the range, indicating absorption of supply. Target: range high.")
          else
            let lpsEvent := phase.events.find? fun e => decide (e.type = .LPS)
            (match lpsEvent with
              | some e => e.price * 1.002
              | none => rangeLow + rangeSize * 0.2,
             rangeLow * 0.99, rangeHigh + rangeSize * 0.5,
             "Wyckoff Accumulation Phase D: Entry at Last Point of Support. Strong hands are ready to markup. Target extends beyond range for markup phase.")
        let entryPrice := ese.1
        let stopPrice := ese.2.1
        let targetPrice := ese.2.2.1
        let riskReward := (targetPrice - entryPrice) / (entryPrice - stopPrice)
        if (1.0 : ℚ) ≤ riskReward then
          [{ title := "Wyckoff Buy (Phase " ++
               (if phase.phase = .C then "C" else "D") ++ ")"
             entry := entryPrice, stop := stopPrice, target := targetPrice
             riskReward := riskReward
             strength := if (0.8 : ℚ) ≤ phase.confidence then .STRONG
               else if (0.6 : ℚ) ≤ phase.confidence then .MODERATE else .WEAK
             age := .FRESH, explanation := ese.2.2.2 }]
        else []
      else if phase.type = .distribution ∧ (phase.phase = .C ∨ phase.phase = .D) then
        let ese : ℚ × ℚ × ℚ × String :=
          if phase.phase = .C then
            let upThrustEvent := phase.events.find? fun e => decide (e.type = .UpThrust)
            (match upThrustEvent with
              | some e => e.price * 0.995
              | none => rangeHigh * 0.99,
             rangeHigh * 1.005, rangeLow,
             "Wyckoff Distribution Phase C: Entry after UpThrust. Market has tested and found resistance above the range, indicating lack of demand. Target: range low.")
          else
            let lpsyEvent := phase.events.find? fun e => decide (e.type = .LPSY)
            (match lpsyEvent with
              | some e => e.price * 0.998
              | none => rangeHigh - rangeSize * 0.2,
             rangeHigh * 1.01, rangeLow - rangeSize * 0.5,
             "Wyckoff Distribution Phase D: Entry at Last Point of Supply. Weak hands are ready for markdown. Target extends beyond range for markdown phase.")
        let entryPrice := ese.1
        let stopPrice := ese.2.1
        let targetPrice := ese.2.2.1
        let riskReward := (entryPrice - targetPrice) / (stopPrice - entryPrice)
        if (1.0 : ℚ) ≤ riskReward then
          [{ title := "Wyckoff Sell (Phase " ++
               (if phase.phase = .C then "C" else "D") ++ ")"
             entry := entryPrice, stop := stopPrice, target := targetPrice
             riskReward := riskReward
             strength := if (0.8 : ℚ) ≤ phase.confidence then .STRONG
               else if (0.6 : ℚ) ≤ phase.confidence then .MODERATE else .WEAK
             age := .FRESH, explanation := ese.2.2.2 }]
        else []
      else []

/-- `_calculateRangeStrength(duration, rangeSize, eventCount)`. -/
def _calculateRangeStrength (duration : ℕ) (rangeSize : ℚ) (eventCount : ℕ) : Strength :=
  let s1 : ℕ := if 50 ≤ duration then 3 else if 30 ≤ duration then 2 else 1
  let s2 : ℕ := if 5 ≤ rangeSize then 3 else if 3 ≤ rangeSize then 2 else 1
  let s3 : ℕ := if 4 ≤ eventCount then 2 else if 2 ≤ eventCount then 1 else 0
  let score := s1 + s2 + s3
  if 6 ≤ score then .STRONG else if 4 ≤ score then .MODERATE else .WEAK

/-- `_analyzeWyckoff(candles, analysis)`. -/
def _analyzeWyckoff (candles : List Candle) (analysis : SMCAnalysis) : WyckoffAnalysis :=
  match analysis.majorHigh, analysis.majorLow with
  | some majorHigh, some majorLow =>
    let currentPrice := analysis.currentPrice
    let rangeHigh := majorHigh.price
    let rangeLow := majorLow.price
    let rangeDuration := natDist majorHigh.index majorLow.index
    let rangeSize := (rangeHigh - rangeLow) / currentPrice * 100
    let isValidRange := 20 ≤ rangeDuration ∧ (2 : ℚ) ≤ rangeSize
    if isValidRange then
      let wyckoffEvents := _detectWyckoffEvents candles rangeHigh rangeLow
      let currentPhase :=
        _determineWyckoffPhase wyckoffEvents candles rangeHigh rangeLow currentPrice
      let tradePlans := _generateWyckoffTradePlans currentPhase currentPrice rangeHigh rangeLow
      let rangeStrength := _calculateRangeStrength rangeDuration rangeSize wyckoffEvents.length
      { isWyckoffPattern := currentPhase.isSome
        currentPhase := currentPhase
        tradePlans := tradePlans
        rangeAnalysis := { rangeHigh := rangeHigh, rangeLow := rangeLow
                           duration := rangeDuration, strength := rangeStrength } }
    else
      { isWyckoffPattern := false, currentPhase := none, tradePlans := []
        rangeAnalysis := { rangeHigh := rangeHigh, rangeLow := rangeLow
                           duration := rangeDuration, strength := .WEAK } }
  | _, _ =>
    { isWyckoffPattern := false, currentPhase := none, tradePlans := []
      rangeAnalysis := { rangeHigh := 0, rangeLow := 0, duration := 0, strength := .WEAK } }

/-- The successful tail of `analyze`: everything after the market structure
has been computed (this part of the TS function cannot fail). -/
def preAnalysis (candles : List Candle) (timeframe : String) (settings : Settings)
    (st : MarketStructure) : SMCAnalysis :=
  let currentPrice := (candles.getLastD default).c
  let pois := _findEnhancedPointsOfInterest candles st currentPrice timeframe settings
  let analysis0 : SMCAnalysis :=
    { toMarketStructure := st
      timeframe := timeframe
      currentPrice := currentPrice
      demandZones := pois.demandZones
      supplyZones := pois.supplyZones
      bullishFVGs := pois.bullishFVGs
      bearishFVGs := pois.bearishFVGs
      buyPlans := []
      sellPlans := []
      confluences := none
      debugInfo := none
      wyckoffAnalysis := none }
  let analysis1 := { analysis0 with confluences := some (_detectConfluences analysis0 candles) }
  if settings.debugMode then { analysis1 with debugInfo := some pois.debugInfo }
  else analysis1

/-- The branching tail of `analyze`: Wyckoff supersession for sideways
markets, otherwise the standard plan generator. -/
def buildAnalysis (candles : List Candle) (timeframe : String) (settings : Settings)
    (st : MarketStructure) : SMCAnalysis :=
  let analysis2 := preAnalysis candles timeframe settings st
  if analysis2.bias = .SIDEWAYS then
    let w := _analyzeWyckoff candles analysis2
    let analysis3 := { analysis2 with wyckoffAnalysis := some w }
    if w.isWyckoffPattern = true ∧ 0 < w.tradePlans.length then
      { analysis3 with
        buyPlans := w.tradePlans.filter fun plan => strIncludes plan.title "Buy"
        sellPlans := w.tradePlans.filter fun plan => strIncludes plan.title "Sell" }
    else
      { analysis3 with
        buyPlans := _createMultipleTradePlans analysis3 .buy settings
        sellPlans := _createMultipleTradePlans analysis3 .sell settings }
  else
    { analysis2 with
      buyPlans := _createMultipleTradePlans analysis2 .buy settings
      sellPlans := _createMultipleTradePlans analysis2 .sell settings }

/-- `SMCAnalyzer.analyze(candles, timeframe)`, with the settings read from
the storage singleton passed explicitly. -/
def analyze (candles : List Candle) (timeframe : String) (settings : Settings) :
    Except AnalyzeError SMCAnalysis :=
  let lookback := lookbackFor timeframe
  if candles.length < lookback * 2 + 10 then
    .error (.insufficientData timeframe)
  else
    let swings := _findSwingPoints candles lookback
    if swings.length < 4 then
      .error (.insufficientSwings timeframe)
    else
      match _findMarketStructure swings with
      | .error e => .error e
      | .ok st => .ok (buildAnalysis candles timeframe settings st)

/-- The successful results of an `analyze` call (empty on error); lets the
claim statements quantify over successful analyses without binding the
analysis record in a hypothesis. -/
def okAnalyses (r : Except AnalyzeError SMCAnalysis) : List SMCAnalysis :=
  match r with
  | .ok a => [a]
  | .error _ => []

/-- All trade plans emitted by an `analyze` result. -/
def plansOf (r : Except AnalyzeError SMCAnalysis) : List TradePlan :=
  match r with
  | .ok a => a.buyPlans ++ a.sellPlans
  | .error _ => []

/-- High of candle `i` of the Wyckoff test series: two equal peaks of 110 at
indices 6 and 36, strictly monotone slopes between them. -/
def wyckHigh (i : ℕ) : ℚ :=
  if i ≤ 5 then 107 + (i : ℚ) * 0.5
  else if i ≤ 21 then 110 - ((i : ℚ) - 6) * 0.5
  else if i ≤ 36 then 102.5 + ((i : ℚ) - 21) * 0.5
  else 110 - ((i : ℚ) - 36) * 0.5

/-- Low of candle `i` of the Wyckoff test series: a flat 102 base with a
spring dip to 99.8 at index 20 and equal swing lows of 100 at 28 and 34. -/
def wyckLow (i : ℕ) : ℚ :=
  if i = 20 then 99.8 else if i = 28 then 100 else if i = 34 then 100 else 102

/-- Open of candle `i` of the Wyckoff test series. -/
def wyckOpen (i : ℕ) : ℚ :=
  if i ≤ 6 then 103
  else if i ≤ 19 then 103
  else if i = 20 then 100.2
  else if i = 21 then 102.45
  else if i ≤ 29 then 102.4
  else if i ≤ 36 then 102.3
  else 103

/-- Close of candle `i` of the Wyckoff test series. -/
def wyckClose (i : ℕ) : ℚ :=
  if i ≤ 5 then 103.5
  else if i = 6 then 104
  else if i ≤ 19 then 102.8
  else if i = 20 then 101.8
  else if i = 21 then 102.3
  else if i ≤ 29 then 102.2
  else if i ≤ 36 then 102.6
  else 104

/-- A 40-candle sideways series with a valid Wyckoff accumulation range and
a Spring at index 20: used to exhibit the behaviour of the Wyckoff plan
path. -/
def wyckCandles : List Candle :=
  (List.range 40).map fun (i : ℕ) =>
    { t := (i : ℤ), o := wyckOpen i, h := wyckHigh i, l := wyckLow i, c := wyckClose i }

/-- The scalp profile settings used by the concrete runs. -/
def scalpSettings : Settings := ⟨.scalp, false⟩

/-- The balanced profile settings used by the concrete runs. -/
def balancedSettings : Settings := ⟨.balanced, false⟩

/-- A constant-price series: thirty identical candles at 102. -/
def flatCandles : List Candle := List.replicate 30 ⟨0, 102, 102, 102, 102⟩

/-- A swing list with rising highs (10 then 20) and rising lows (5 then 15),
the shape of a monotonic uptrend. -/
def risingSwings : List SwingPoint :=
  [⟨.low, 5, 0⟩, ⟨.high, 10, 2⟩, ⟨.low, 15, 4⟩, ⟨.high, 20, 6⟩]


/-- Three identical candles at price 5: the smallest series on which the
swing detector emits a non-unique maximum. -/
def threeFlat : List Candle := List.replicate 3 ⟨0, 5, 5, 5, 5⟩

/-- A constant-price series: every candle has open, high, low and close all
equal to `p` (timestamps may vary). -/
def isFlatSeries (candles : List Candle) (p : ℚ) : Prop :=
  ∀ c ∈ candles, c.o = p ∧ c.h = p ∧ c.l = p ∧ c.c = p

instance {candles : List Candle} {p : ℚ} : Decidable (isFlatSeries candles p) := by
  unfold isFlatSeries; exact List.decidableBAll _ _

/-- The specification's notion of a *unique* maximum high over the symmetric
window `[i - lookback, i + lookback]`: every other index of the window has a
strictly smaller high. -/
def uniqueMaxHighAt (candles : List Candle) (lookback i : ℕ) : Prop :=
  ∀ j ∈ List.range' (i - lookback) (2 * lookback + 1), j ≠ i →
    (candles.getD j default).h < (candles.getD i default).h

instance {candles : List Candle} {lookback i : ℕ} :
    Decidable (uniqueMaxHighAt candles lookback i) := by
  unfold uniqueMaxHighAt; exact List.decidableBAll _ _

/-- Nineteen constant candles: one short of the `1h` candle-count threshold
`2 * 5 + 10`. -/
def flat19 : List Candle := List.replicate 19 ⟨0, 102, 102, 102, 102⟩

/-- Twenty constant candles: exactly the `1h` candle-count threshold. -/
def flat20 : List Candle := List.replicate 20 ⟨0, 102, 102, 102, 102⟩

/-- A hand-built sideways analysis whose major swings are only 5 candles
apart: exercises the Wyckoff range validation. -/
def narrowRangeAnalysis : SMCAnalysis :=
  { toMarketStructure :=
      ⟨.SIDEWAYS, "", none, some ⟨.high, 110, 5⟩, some ⟨.low, 100, 10⟩, 52, .WEAK⟩
    timeframe := "1h", currentPrice := 104
    buyPlans := [], sellPlans := []
    demandZones := [], supplyZones := [], bullishFVGs := [], bearishFVGs := []
    confluences := none, debugInfo := none, wyckoffAnalysis := none }

/-- The successful analysis record of the Wyckoff test run (scalp profile,
15m timeframe). -/
def wyckRun : SMCAnalysis :=
  (okAnalyses (analyze wyckCandles "15m" scalpSettings)).getD 0 default

/-- The first plan emitted by the Wyckoff test run. -/
def wyckRunPlan : TradePlan :=
  (plansOf (analyze wyckCandles "15m" scalpSettings)).getD 0 default

instance : IsTrans EnhancedZone zoneOrd := ⟨by
  intro a b c hab hbc
  unfold zoneOrd at *
  rcases hab with h1 | ⟨h1, h1d⟩
  all_goals rcases hbc with h2 | ⟨h2, h2d⟩
  · exact Or.inl (by omega)
  · exact Or.inl (by omega)
  · exact Or.inl (by omega)
  · exact Or.inr ⟨by omega, le_trans h1d h2d⟩⟩

instance : IsTotal EnhancedZone zoneOrd := ⟨by
  intro a b
  unfold zoneOrd
  rcases lt_trichotomy (zoneScore a) (zoneScore b) with h | h | h
  · exact Or.inr (Or.inl h)
  · rcases le_total a.distance b.distance with hd | hd
    · exact Or.inl (Or.inr ⟨h, hd⟩)
    · exact Or.inr (Or.inr ⟨h.symm, hd⟩)
  · exact Or.inl (Or.inl h)⟩

/-!
## Theorems

General-purpose lemmas first, then one theorem per claim (with a witness or
counterexample where required).
-/

/-- A positive quotient equals the quotient of absolute values, and its
denominator is nonzero. -/
theorem div_abs_of_pos {a b : ℚ} (h : 0 < a / b) : a / b = |a| / |b| ∧ b ≠ 0 := by
  rcases div_pos_iff.mp h with ⟨ha, hb⟩ | ⟨ha, hb⟩
  · exact ⟨by rw [abs_of_pos ha, abs_of_pos hb], ne_of_gt hb⟩
  · exact ⟨by rw [abs_of_neg ha, abs_of_neg hb, neg_div_neg_eq], ne_of_lt hb⟩

/-- Every profile has a strictly positive minimum risk/reward bound. -/
theorem profileConfig_minRR_pos (pr : Profile) : 0 < (profileConfig pr).minRR := by
  cases pr <;> norm_num [profileConfig]

/-- Every profile admits at least one plan. -/
theorem profileConfig_maxPlans_pos (pr : Profile) : 1 ≤ (profileConfig pr).maxPlans := by
  cases pr <;> simp [profileConfig]

/-- `_findMarketStructure` only ever fails with the structure error. -/
theorem findMarketStructure_error_shape {swings : List SwingPoint} {e : AnalyzeError}
    (h : _findMarketStructure swings = .error e) : e = .indeterminateStructure := by
  simp only [_findMarketStructure] at h
  split_ifs at h
  all_goals simp_all

/-- Claim C9: `analyze` is deterministic — it is a pure function of the
candle array, the timeframe string and the settings snapshot, so equal
inputs give equal outputs.  (In the embedding the settings singleton is an
explicit parameter; purity holds by construction, mirroring the TS core,
which performs no I/O and reads no other mutable state during a call.) -/
theorem analyze_deterministic (c₁ c₂ : List Candle) (t₁ t₂ : String)
    (s₁ s₂ : Settings) (hc : c₁ = c₂) (ht : t₁ = t₂) (hs : s₁ = s₂) :
    analyze c₁ t₁ s₁ = analyze c₂ t₂ s₂ := by
  subst hc; subst ht; subst hs; rfl

/-- Witness for C9 at a concrete input. -/
theorem analyze_deterministic_witness :
    analyze flatCandles "1h" balancedSettings = analyze flatCandles "1h" balancedSettings :=
  analyze_deterministic flatCandles flatCandles "1h" "1h"
    balancedSettings balancedSettings rfl rfl rfl

set_option maxRecDepth 100000 in
unseal Rat.add Rat.mul Rat.sub Rat.inv Rat.ofScientific in
/-- Claim C6 (evaluation at the failing input): on a monotonic uptrend swing
sequence — highs 10 then 20, lows 5 then 15, so the *most recent* high and
low both exceed their predecessors — the classifier returns BEARISH/BOS with
breakLevel 15 (the most recent low), because the destructuring
`[lastHigh, prevHigh] = highs.slice(-2)` binds `lastHigh` to the older
swing.  The claim (and the spec rule 1) requires BULLISH/BOS with
breakLevel = previous high here. -/
theorem structure_misclassifies_uptrend :
    (_findMarketStructure risingSwings).toOption.map
      (fun st => (st.bias, st.lastEvent, st.breakLevel, st.majorHigh, st.majorLow)) =
    some (.BEARISH, "BOS", some 15, some ⟨.high, 20, 6⟩, some ⟨.low, 5, 0⟩) := by
  decide

/-- Claim C8: whenever the Wyckoff analyzer runs on a sideways structure
with both majors defined and either the index distance of the majors is
below 20 candles or the range size is below 2% of the current price, the
result reports no Wyckoff pattern and carries no trade plans. -/
theorem wyckoff_invalid_range (candles : List Candle) (a : SMCAnalysis)
    (mh ml : SwingPoint) (hbias : a.bias = .SIDEWAYS)
    (hmh : a.majorHigh = some mh) (hml : a.majorLow = some ml)
    (hsmall : natDist mh.index ml.index < 20 ∨
      (mh.price - ml.price) / a.currentPrice * 100 < 2) :
    (_analyzeWyckoff candles a).isWyckoffPattern = false ∧
      (_analyzeWyckoff candles a).tradePlans = [] := by
  have hcond : ¬ (20 ≤ natDist mh.index ml.index ∧
      (2 : ℚ) ≤ (mh.price - ml.price) / a.currentPrice * 100) := by
    rintro ⟨h20, h2⟩
    rcases hsmall with h | h
    · omega
    · linarith
  unfold _analyzeWyckoff
  rw [hmh, hml]
  refine ⟨?_, ?_⟩ <;>
  · simp only
    split
    · exact absurd ‹_› hcond
    · rfl

set_option maxRecDepth 100000 in
unseal Rat.add Rat.mul Rat.sub Rat.inv Rat.ofScientific in
/-- Witness for C8: the hand-built sideways analysis whose majors are 5
candles apart is rejected by the range validation. -/
theorem wyckoff_invalid_range_witness :
    narrowRangeAnalysis.bias = .SIDEWAYS ∧
    (_analyzeWyckoff [] narrowRangeAnalysis).isWyckoffPattern = false ∧
    (_analyzeWyckoff [] narrowRangeAnalysis).tradePlans = [] :=
  ⟨rfl,
   wyckoff_invalid_range [] narrowRangeAnalysis ⟨.high, 110, 5⟩ ⟨.low, 100, 10⟩
     rfl rfl rfl (Or.inl (by decide))⟩

/-- Claim C3: `analyze` returns the insufficient-data error whenever fewer
than `2·lookback(timeframe) + 10` candles are supplied — in particular at
exactly `2·lookback + 9` — and with exactly `2·lookback + 10` candles the
candle-count check passes (the insufficient-data error is no longer
possible); a separate insufficient-swings error is returned when fewer than
4 swing points are detected; and the lookback table is 3/4/5/6/8 for
15m/30m/1h/4h/1d with default 5. -/
theorem analyze_insufficient_data (candles : List Candle) (tf : String) (s : Settings) :
    (candles.length < 2 * lookbackFor tf + 10 →
      analyze candles tf s = .error (.insufficientData tf)) ∧
    (candles.length = 2 * lookbackFor tf + 9 →
      analyze candles tf s = .error (.insufficientData tf)) ∧
    (candles.length = 2 * lookbackFor tf + 10 →
      analyze candles tf s ≠ .error (.insufficientData tf)) ∧
    ((_findSwingPoints candles (lookbackFor tf)).length < 4 →
      2 * lookbackFor tf + 10 ≤ candles.length →
      analyze candles tf s = .error (.insufficientSwings tf)) ∧
    lookbackFor "15m" = 3 ∧ lookbackFor "30m" = 4 ∧ lookbackFor "1h" = 5 ∧
    lookbackFor "4h" = 6 ∧ lookbackFor "1d" = 8 ∧
    (∀ t : String, t ∉ ["15m", "30m", "1h", "4h", "1d"] → lookbackFor t = 5) := by
  refine ⟨?_, ?_, ?_, ?_, by decide, by decide, by decide, by decide, by decide, ?_⟩
  · intro h
    unfold analyze
    rw [if_pos (by omega)]
  · intro h
    unfold analyze
    rw [if_pos (by omega)]
  · intro h
    unfold analyze
    rw [if_neg (by omega)]
    simp only
    split
    · simp
    · split
      · rename_i e herr
        have := findMarketStructure_error_shape herr
        subst this
        simp
      · simp
  · intro hsw hlen
    unfold analyze
    rw [if_neg (by omega)]
    simp only
    rw [if_pos hsw]
  · intro t ht
    simp only [List.mem_cons, List.not_mem_nil, or_false] at ht
    push_neg at ht
    unfold lookbackFor
    rw [if_neg ht.1, if_neg ht.2.1, if_neg ht.2.2.1, if_neg ht.2.2.2.1,
      if_neg ht.2.2.2.2]

/-- Witness for C3: nineteen candles on `1h` (lookback 5) is exactly
`2·5 + 9` and errors; twenty is exactly `2·5 + 10` and passes the count
check; an unknown timeframe string gets lookback 5. -/
theorem analyze_insufficient_data_witness :
    analyze flat19 "1h" balancedSettings = .error (.insufficientData "1h") ∧
    analyze flat20 "1h" balancedSettings ≠ .error (.insufficientData "1h") ∧
    lookbackFor "2h" = 5 :=
  ⟨(analyze_insufficient_data flat19 "1h" balancedSettings).2.1 (by decide),
   (analyze_insufficient_data flat20 "1h" balancedSettings).2.2.1 (by decide),
   (analyze_insufficient_data flat19 "1h" balancedSettings).2.2.2.2.2.2.2.2.2
     "2h" (by decide)⟩

/-- The sorted-and-truncated zone lists are at most 3 long and ordered by
descending score with distance tie-breaking. -/
theorem sortTake_spec (zones : List EnhancedZone) :
    (sortByStrengthAndProximity zones).length ≤ 3 ∧
      List.Pairwise zoneOrd (sortByStrengthAndProximity zones) := by
  constructor
  · unfold sortByStrengthAndProximity
    rw [List.length_take]
    omega
  · exact List.Pairwise.sublist (List.take_sublist 3 _)
      (List.sorted_insertionSort zoneOrd zones)

/-- Every zone list produced by `_findEnhancedPointsOfInterest` is capped at
3 and sorted by the zone-score order. -/
theorem pois_zones_spec (candles : List Candle) (st : MarketStructure) (cp : ℚ)
    (tf : String) (s : Settings) :
    ((_findEnhancedPointsOfInterest candles st cp tf s).demandZones.length ≤ 3 ∧
      List.Pairwise zoneOrd (_findEnhancedPointsOfInterest candles st cp tf s).demandZones) ∧
    ((_findEnhancedPointsOfInterest candles st cp tf s).supplyZones.length ≤ 3 ∧
      List.Pairwise zoneOrd (_findEnhancedPointsOfInterest candles st cp tf s).supplyZones) ∧
    ((_findEnhancedPointsOfInterest candles st cp tf s).bullishFVGs.length ≤ 3 ∧
      List.Pairwise zoneOrd (_findEnhancedPointsOfInterest candles st cp tf s).bullishFVGs) ∧
    ((_findEnhancedPointsOfInterest candles st cp tf s).bearishFVGs.length ≤ 3 ∧
      List.Pairwise zoneOrd (_findEnhancedPointsOfInterest candles st cp tf s).bearishFVGs) := by
  unfold _findEnhancedPointsOfInterest
  split
  · exact ⟨sortTake_spec _, sortTake_spec _, sortTake_spec _, sortTake_spec _⟩
  · simp

/-- `preAnalysis` copies the market structure verbatim. -/
theorem preAnalysis_toStructure (candles : List Candle) (tf : String) (s : Settings)
    (st : MarketStructure) :
    (preAnalysis candles tf s st).toMarketStructure = st := by
  unfold preAnalysis
  by_cases h : s.debugMode <;> simp [h]

/-- `preAnalysis` stores the zone lists of `_findEnhancedPointsOfInterest`. -/
theorem preAnalysis_zones (candles : List Candle) (tf : String) (s : Settings)
    (st : MarketStructure) :
    (preAnalysis candles tf s st).demandZones =
      (_findEnhancedPointsOfInterest candles st ((candles.getLastD default).c) tf s).demandZones ∧
    (preAnalysis candles tf s st).supplyZones =
      (_findEnhancedPointsOfInterest candles st ((candles.getLastD default).c) tf s).supplyZones ∧
    (preAnalysis candles tf s st).bullishFVGs =
      (_findEnhancedPointsOfInterest candles st ((candles.getLastD default).c) tf s).bullishFVGs ∧
    (preAnalysis candles tf s st).bearishFVGs =
      (_findEnhancedPointsOfInterest candles st ((candles.getLastD default).c) tf s).bearishFVGs := by
  unfold preAnalysis
  by_cases h : s.debugMode <;> simp [h]

/-- `buildAnalysis` only rewrites the plan and Wyckoff fields of
`preAnalysis`. -/
theorem buildAnalysis_zones (candles : List Candle) (tf : String) (s : Settings)
    (st : MarketStructure) :
    (buildAnalysis candles tf s st).demandZones = (preAnalysis candles tf s st).demandZones ∧
    (buildAnalysis candles tf s st).supplyZones = (preAnalysis candles tf s st).supplyZones ∧
    (buildAnalysis candles tf s st).bullishFVGs = (preAnalysis candles tf s st).bullishFVGs ∧
    (buildAnalysis candles tf s st).bearishFVGs = (preAnalysis candles tf s st).bearishFVGs := by
  simp only [buildAnalysis]
  split
  · split
    · exact ⟨rfl, rfl, rfl, rfl⟩
    · exact ⟨rfl, rfl, rfl, rfl⟩
  · exact ⟨rfl, rfl, rfl, rfl⟩

/-- `buildAnalysis` preserves the structural fields. -/
theorem buildAnalysis_structure (candles : List Candle) (tf : String) (s : Settings)
    (st : MarketStructure) :
    (buildAnalysis candles tf s st).bias = st.bias ∧
    (buildAnalysis candles tf s st).majorHigh = st.majorHigh ∧
    (buildAnalysis candles tf s st).majorLow = st.majorLow := by
  have h := preAnalysis_toStructure candles tf s st
  simp only [buildAnalysis]
  split
  · split
    · exact ⟨congrArg MarketStructure.bias h, congrArg MarketStructure.majorHigh h,
        congrArg MarketStructure.majorLow h⟩
    · exact ⟨congrArg MarketStructure.bias h, congrArg MarketStructure.majorHigh h,
        congrArg MarketStructure.majorLow h⟩
  · exact ⟨congrArg MarketStructure.bias h, congrArg MarketStructure.majorHigh h,
      congrArg MarketStructure.majorLow h⟩

/-- Inversion of a successful `analyze` call: the result is
`buildAnalysis` on a successfully classified structure. -/
theorem analyze_ok_shape {candles : List Candle} {tf : String} {s : Settings}
    {a : SMCAnalysis} (ha : a ∈ okAnalyses (analyze candles tf s)) :
    ∃ st, _findMarketStructure (_findSwingPoints candles (lookbackFor tf)) = .ok st ∧
      a = buildAnalysis candles tf s st := by
  simp only [analyze] at ha
  split at ha
  · simp [okAnalyses] at ha
  · split at ha
    · simp [okAnalyses] at ha
    · split at ha
      · simp [okAnalyses] at ha
      · rename_i st hst
        simp [okAnalyses] at ha
        exact ⟨st, hst, ha⟩

/-- Claim C7: every successful analysis carries at most 3 zones in each of
the four zone lists, each list ordered by descending score (strength rank
plus confluence bonus) with ties broken by smaller distance. -/
theorem analysis_zone_caps (candles : List Candle) (tf : String) (s : Settings) :
    ∀ a ∈ okAnalyses (analyze candles tf s),
      (a.demandZones.length ≤ 3 ∧ List.Pairwise zoneOrd a.demandZones) ∧
      (a.supplyZones.length ≤ 3 ∧ List.Pairwise zoneOrd a.supplyZones) ∧
      (a.bullishFVGs.length ≤ 3 ∧ List.Pairwise zoneOrd a.bullishFVGs) ∧
      (a.bearishFVGs.length ≤ 3 ∧ List.Pairwise zoneOrd a.bearishFVGs) := by
  intro a ha
  obtain ⟨st, hst, rfl⟩ := analyze_ok_shape ha
  obtain ⟨h1, h2, h3, h4⟩ := buildAnalysis_zones candles tf s st
  obtain ⟨g1, g2, g3, g4⟩ := preAnalysis_zones candles tf s st
  rw [h1, h2, h3, h4, g1, g2, g3, g4]
  exact pois_zones_spec candles st ((candles.getLastD default).c) tf s

set_option maxRecDepth 400000 in
unseal Rat.add Rat.mul Rat.sub Rat.inv Rat.ofScientific in
/-- Witness for C7 on the concrete Wyckoff test run. -/
theorem analysis_zone_caps_witness :
    (wyckRun.demandZones.length ≤ 3 ∧ List.Pairwise zoneOrd wyckRun.demandZones) ∧
    (wyckRun.supplyZones.length ≤ 3 ∧ List.Pairwise zoneOrd wyckRun.supplyZones) ∧
    (wyckRun.bullishFVGs.length ≤ 3 ∧ List.Pairwise zoneOrd wyckRun.bullishFVGs) ∧
    (wyckRun.bearishFVGs.length ≤ 3 ∧ List.Pairwise zoneOrd wyckRun.bearishFVGs) :=
  analysis_zone_caps wyckCandles "15m" scalpSettings wyckRun (by decide)

/-- Any plan admitted by the buy `forEach` body satisfies the profile
risk/reward bounds and stores the buy-form ratio. -/
theorem mkBuyPlan_sound {config : ProfileConfig} {bias : Bias} {mh ml : ℚ}
    {idx : ℕ} {zone : EnhancedZone} {p : TradePlan}
    (h : mkBuyPlan config bias mh ml idx zone = some p) :
    config.minRR ≤ p.riskReward ∧ p.riskReward ≤ config.maxRR ∧
      p.riskReward = (p.target - p.entry) / (p.entry - p.stop) := by
  simp only [mkBuyPlan] at h
  split at h <;>
  · split at h
    · rename_i hc
      rw [Option.some.injEq] at h
      subst h
      exact ⟨hc.1, hc.2, rfl⟩
    · exact absurd h (by simp)

/-- Any plan admitted by the sell `forEach` body satisfies the profile
risk/reward bounds and stores the sell-form ratio. -/
theorem mkSellPlan_sound {config : ProfileConfig} {bias : Bias} {mh ml : ℚ}
    {idx : ℕ} {zone : EnhancedZone} {p : TradePlan}
    (h : mkSellPlan config bias mh ml idx zone = some p) :
    config.minRR ≤ p.riskReward ∧ p.riskReward ≤ config.maxRR ∧
      p.riskReward = (p.entry - p.target) / (p.stop - p.entry) := by
  simp only [mkSellPlan] at h
  split at h <;>
  · split at h
    · rename_i hc
      rw [Option.some.injEq] at h
      subst h
      exact ⟨hc.1, hc.2, rfl⟩
    · exact absurd h (by simp)

/-- Every plan emitted by `_createMultipleTradePlans` respects the profile
bounds and stores one of the two ratio forms. -/
theorem createMultipleTradePlans_sound {analysis : SMCAnalysis} {side : PlanSide}
    {settings : Settings} {p : TradePlan}
    (hp : p ∈ _createMultipleTradePlans analysis side settings) :
    (profileConfig settings.tradingProfile).minRR ≤ p.riskReward ∧
    p.riskReward ≤ (profileConfig settings.tradingProfile).maxRR ∧
    (p.riskReward = (p.target - p.entry) / (p.entry - p.stop) ∨
      p.riskReward = (p.entry - p.target) / (p.stop - p.entry)) := by
  cases side
  · simp only [_createMultipleTradePlans] at hp
    split at hp
    · split at hp
      · obtain ⟨q, hq, hf⟩ := List.mem_filterMap.mp hp
        obtain ⟨h1, h2, h3⟩ := mkBuyPlan_sound hf
        exact ⟨h1, h2, Or.inl h3⟩
      · simp at hp
    · simp at hp
  · simp only [_createMultipleTradePlans] at hp
    split at hp
    · split at hp
      · obtain ⟨q, hq, hf⟩ := List.mem_filterMap.mp hp
        obtain ⟨h1, h2, h3⟩ := mkSellPlan_sound hf
        exact ⟨h1, h2, Or.inr h3⟩
      · simp at hp
    · simp at hp

/-- `_createMultipleTradePlans` emits at most `maxPlans` plans. -/
theorem createMultipleTradePlans_length (analysis : SMCAnalysis) (side : PlanSide)
    (settings : Settings) :
    (_createMultipleTradePlans analysis side settings).length ≤
      (profileConfig settings.tradingProfile).maxPlans := by
  cases side <;>
    (simp only [_createMultipleTradePlans]
     split
     · split
       · refine le_trans (List.length_filterMap_le _ _) ?_
         rw [List.enum_length, List.length_take]
         omega
       · simp
     · simp)

/-- Every Wyckoff trade plan passes the `riskReward >= 1.0` filter and
stores one of the two ratio forms. -/
theorem generateWyckoffTradePlans_sound {phase? : Option WyckoffPhase}
    {cp rh rl : ℚ} {p : TradePlan}
    (hp : p ∈ _generateWyckoffTradePlans phase? cp rh rl) :
    1 ≤ p.riskReward ∧
    (p.riskReward = (p.target - p.entry) / (p.entry - p.stop) ∨
      p.riskReward = (p.entry - p.target) / (p.stop - p.entry)) := by
  have one_eq : (1.0 : ℚ) = 1 := by norm_num
  simp only [_generateWyckoffTradePlans] at hp
  split at hp
  · simp at hp
  · split at hp
    · simp at hp
    · split at hp
      · split at hp <;>
        · split at hp
          · rename_i hrr
            simp only [List.mem_singleton] at hp
            subst hp
            exact ⟨one_eq ▸ hrr, Or.inl rfl⟩
          · simp at hp
      · split at hp
        · split at hp <;>
          · split at hp
            · rename_i hrr
              simp only [List.mem_singleton] at hp
              subst hp
              exact ⟨one_eq ▸ hrr, Or.inr rfl⟩
            · simp at hp
        · simp at hp

/-- The Wyckoff generator emits at most one plan. -/
theorem generateWyckoffTradePlans_length (phase? : Option WyckoffPhase)
    (cp rh rl : ℚ) :
    (_generateWyckoffTradePlans phase? cp rh rl).length ≤ 1 := by
  simp only [_generateWyckoffTradePlans]
  split
  · simp
  · split
    · simp
    · split
      · split <;> split <;> simp
      · split
        · split <;> split <;> simp
        · simp

/-- Plans attached to a `_analyzeWyckoff` result come from the Wyckoff
generator, hence satisfy its guarantees. -/
theorem analyzeWyckoff_plans_sound {candles : List Candle} {a : SMCAnalysis}
    {p : TradePlan} (hp : p ∈ (_analyzeWyckoff candles a).tradePlans) :
    1 ≤ p.riskReward ∧
    (p.riskReward = (p.target - p.entry) / (p.entry - p.stop) ∨
      p.riskReward = (p.entry - p.target) / (p.stop - p.entry)) := by
  simp only [_analyzeWyckoff] at hp
  split at hp
  · split at hp
    · dsimp only at hp
      exact generateWyckoffTradePlans_sound hp
    · simp at hp
  · simp at hp

/-- A `_analyzeWyckoff` result carries at most one plan. -/
theorem analyzeWyckoff_plans_length (candles : List Candle) (a : SMCAnalysis) :
    (_analyzeWyckoff candles a).tradePlans.length ≤ 1 := by
  simp only [_analyzeWyckoff]
  split
  · split
    · dsimp only
      exact generateWyckoffTradePlans_length _ _ _ _
    · simp
  · simp

/-- Decomposition of the plans of a built analysis: either the standard
generator produced them, or they came from the Wyckoff analyzer and are
recorded in the `wyckoffAnalysis` field. -/
theorem buildAnalysis_plan_origin {candles : List Candle} {tf : String}
    {settings : Settings} {st : MarketStructure} {p : TradePlan}
    (hp : p ∈ (buildAnalysis candles tf settings st).buyPlans ++
      (buildAnalysis candles tf settings st).sellPlans) :
    (∃ a' side, p ∈ _createMultipleTradePlans a' side settings) ∨
    (∃ w, (buildAnalysis candles tf settings st).wyckoffAnalysis = some w ∧
      p ∈ w.tradePlans ∧ ∃ c' a', w = _analyzeWyckoff c' a') := by
  simp only [buildAnalysis] at hp ⊢
  by_cases c1 : (preAnalysis candles tf settings st).bias = .SIDEWAYS
  · rw [if_pos c1] at hp ⊢
    by_cases c2 :
        (_analyzeWyckoff candles (preAnalysis candles tf settings st)).isWyckoffPattern = true ∧
          0 < (_analyzeWyckoff candles (preAnalysis candles tf settings st)).tradePlans.length
    · rw [if_pos c2] at hp ⊢
      dsimp only at hp
      right
      refine ⟨_analyzeWyckoff candles (preAnalysis candles tf settings st), rfl, ?_,
        candles, preAnalysis candles tf settings st, rfl⟩
      rcases List.mem_append.mp hp with h | h
      · exact (List.mem_filter.mp h).1
      · exact (List.mem_filter.mp h).1
    · rw [if_neg c2] at hp
      dsimp only at hp
      left
      rcases List.mem_append.mp hp with h | h
      · exact ⟨_, .buy, h⟩
      · exact ⟨_, .sell, h⟩
  · rw [if_neg c1] at hp
    dsimp only at hp
    left
    rcases List.mem_append.mp hp with h | h
    · exact ⟨_, .buy, h⟩
    · exact ⟨_, .sell, h⟩

/-- A plan of an `analyze` result belongs to the returned analysis. -/
theorem mem_plansOf {r : Except AnalyzeError SMCAnalysis} {p : TradePlan}
    (hp : p ∈ plansOf r) :
    ∃ a ∈ okAnalyses r, p ∈ a.buyPlans ++ a.sellPlans := by
  cases r with
  | error e => simp [plansOf] at hp
  | ok a => exact ⟨a, by simp [okAnalyses], by simpa [plansOf] using hp⟩

/-- A positively-valued risk/reward in either directional form equals the
absolute-value form, with a nonzero entry-to-stop distance. -/
theorem rr_forms_abs {p : TradePlan} (hpos : 0 < p.riskReward)
    (hform : p.riskReward = (p.target - p.entry) / (p.entry - p.stop) ∨
      p.riskReward = (p.entry - p.target) / (p.stop - p.entry)) :
    p.riskReward = |p.target - p.entry| / |p.entry - p.stop| ∧ p.entry ≠ p.stop := by
  rcases hform with h | h
  · have hd := div_abs_of_pos (h ▸ hpos)
    exact ⟨h.trans hd.1, fun he => hd.2 (by rw [he, sub_self])⟩
  · have hd := div_abs_of_pos (h ▸ hpos)
    refine ⟨?_, fun he => hd.2 (by rw [he, sub_self])⟩
    rw [h, hd.1, abs_sub_comm p.entry p.target, abs_sub_comm p.stop p.entry]

/-- Claim C2: every emitted trade plan — standard or Wyckoff — stores
`riskReward = |target - entry| / |entry - stop|` (exactly, in the rational
model), the value is strictly positive, and plans with a zero
entry-to-stop distance are never emitted. -/
theorem plans_rr_correct (candles : List Candle) (tf : String) (s : Settings) :
    ∀ p ∈ plansOf (analyze candles tf s),
      p.riskReward = |p.target - p.entry| / |p.entry - p.stop| ∧
      0 < p.riskReward ∧ p.entry ≠ p.stop := by
  intro p hp
  obtain ⟨a, ha, hpa⟩ := mem_plansOf hp
  obtain ⟨st, hst, rfl⟩ := analyze_ok_shape ha
  rcases buildAnalysis_plan_origin hpa with ⟨a', side, hmem⟩ | ⟨w, hw, hpw, c', a', rfl⟩
  · obtain ⟨h1, h2, h3⟩ := createMultipleTradePlans_sound hmem
    have hpos : 0 < p.riskReward := lt_of_lt_of_le (profileConfig_minRR_pos _) h1
    obtain ⟨habs, hne⟩ := rr_forms_abs hpos h3
    exact ⟨habs, hpos, hne⟩
  · obtain ⟨h1, h3⟩ := analyzeWyckoff_plans_sound hpw
    have hpos : 0 < p.riskReward := lt_of_lt_of_le one_pos h1
    obtain ⟨habs, hne⟩ := rr_forms_abs hpos h3
    exact ⟨habs, hpos, hne⟩

set_option maxRecDepth 400000 in
unseal Rat.add Rat.mul Rat.sub Rat.inv Rat.ofScientific in
/-- Witness for C2 on the plan emitted by the Wyckoff test run. -/
theorem plans_rr_correct_witness :
    wyckRunPlan.riskReward =
      |wyckRunPlan.target - wyckRunPlan.entry| / |wyckRunPlan.entry - wyckRunPlan.stop| ∧
    0 < wyckRunPlan.riskReward ∧ wyckRunPlan.entry ≠ wyckRunPlan.stop :=
  plans_rr_correct wyckCandles "15m" scalpSettings wyckRunPlan (by decide)

set_option maxRecDepth 400000 in
unseal Rat.add Rat.mul Rat.sub Rat.inv Rat.ofScientific in
/-- Counterexample to claim C1 as stated: on the Wyckoff test series with
the scalp profile, the emitted Wyckoff buy plan has riskReward 9701/799
(about 12.1), far above the scalp profile maxRR of 2.0 — the Wyckoff path
only enforces `riskReward >= 1.0`. -/
theorem plan_bounds_cex :
    ¬ ∀ p ∈ plansOf (analyze wyckCandles "15m" scalpSettings),
        (profileConfig scalpSettings.tradingProfile).minRR ≤ p.riskReward ∧
        p.riskReward ≤ (profileConfig scalpSettings.tradingProfile).maxRR := by
  decide

/-- `buildAnalysis` emits at most `maxPlans` plans per side. -/
theorem buildAnalysis_plans_length (candles : List Candle) (tf : String)
    (settings : Settings) (st : MarketStructure) :
    (buildAnalysis candles tf settings st).buyPlans.length ≤
      (profileConfig settings.tradingProfile).maxPlans ∧
    (buildAnalysis candles tf settings st).sellPlans.length ≤
      (profileConfig settings.tradingProfile).maxPlans := by
  simp only [buildAnalysis]
  by_cases c1 : (preAnalysis candles tf settings st).bias = .SIDEWAYS
  · rw [if_pos c1]
    by_cases c2 :
        (_analyzeWyckoff candles (preAnalysis candles tf settings st)).isWyckoffPattern = true ∧
          0 < (_analyzeWyckoff candles (preAnalysis candles tf settings st)).tradePlans.length
    · rw [if_pos c2]
      dsimp only
      constructor <;>
      · exact le_trans (List.length_filter_le _ _)
          (le_trans (analyzeWyckoff_plans_length _ _) (profileConfig_maxPlans_pos _))
    · rw [if_neg c2]
      dsimp only
      exact ⟨createMultipleTradePlans_length _ _ _, createMultipleTradePlans_length _ _ _⟩
  · rw [if_neg c1]
    dsimp only
    exact ⟨createMultipleTradePlans_length _ _ _, createMultipleTradePlans_length _ _ _⟩

/-- Claim C1, amended: the per-side plan count is always bounded by
`profile.maxPlans`; every plan produced by the standard generator satisfies
`profile.minRR ≤ riskReward ≤ profile.maxRR`; but a plan that came from the
superseding Wyckoff path (recorded in `wyckoffAnalysis`) is only guaranteed
`riskReward ≥ 1.0` — it may exceed `profile.maxRR`. -/
theorem plan_bounds (candles : List Candle) (tf : String) (s : Settings) :
    ∀ a ∈ okAnalyses (analyze candles tf s),
      a.buyPlans.length ≤ (profileConfig s.tradingProfile).maxPlans ∧
      a.sellPlans.length ≤ (profileConfig s.tradingProfile).maxPlans ∧
      ∀ p ∈ a.buyPlans ++ a.sellPlans,
        ((profileConfig s.tradingProfile).minRR ≤ p.riskReward ∧
          p.riskReward ≤ (profileConfig s.tradingProfile).maxRR) ∨
        (1 ≤ p.riskReward ∧ ∃ w, a.wyckoffAnalysis = some w ∧ p ∈ w.tradePlans) := by
  intro a ha
  obtain ⟨st, hst, rfl⟩ := analyze_ok_shape ha
  obtain ⟨hb, hs⟩ := buildAnalysis_plans_length candles tf s st
  refine ⟨hb, hs, ?_⟩
  intro p hp
  rcases buildAnalysis_plan_origin hp with ⟨a', side, hmem⟩ | ⟨w, hw, hpw, c', a', hweq⟩
  · obtain ⟨h1, h2, h3⟩ := createMultipleTradePlans_sound hmem
    exact Or.inl ⟨h1, h2⟩
  · obtain ⟨h1, h3⟩ := analyzeWyckoff_plans_sound (hweq ▸ hpw)
    exact Or.inr ⟨h1, w, hw, hpw⟩

set_option maxRecDepth 400000 in
unseal Rat.add Rat.mul Rat.sub Rat.inv Rat.ofScientific in
/-- Witness for the amended C1 on the Wyckoff test run. -/
theorem plan_bounds_witness :
    wyckRun.buyPlans.length ≤ (profileConfig scalpSettings.tradingProfile).maxPlans ∧
    wyckRun.sellPlans.length ≤ (profileConfig scalpSettings.tradingProfile).maxPlans ∧
    (((profileConfig scalpSettings.tradingProfile).minRR ≤ wyckRunPlan.riskReward ∧
        wyckRunPlan.riskReward ≤ (profileConfig scalpSettings.tradingProfile).maxRR) ∨
      (1 ≤ wyckRunPlan.riskReward ∧
        ∃ w, wyckRun.wyckoffAnalysis = some w ∧ wyckRunPlan ∈ w.tradePlans)) := by
  obtain ⟨h1, h2, h3⟩ := plan_bounds wyckCandles "15m" scalpSettings wyckRun (by decide)
  exact ⟨h1, h2, h3 wyckRunPlan (by decide)⟩

/-- Every swing point pushed at loop index `i` carries index `i`. -/
theorem swingsAt_index {candles : List Candle} {lb i : ℕ} {sp : SwingPoint}
    (h : sp ∈ swingsAt candles lb i) : sp.index = i := by
  simp only [swingsAt] at h
  split at h
  · rcases List.mem_append.mp h with h' | h' <;> (split at h' <;> simp_all)
  · simp at h

/-- Membership in the swing list is membership in the per-index push list. -/
theorem mem_findSwingPoints {candles : List Candle} {lb : ℕ} {sp : SwingPoint} :
    sp ∈ _findSwingPoints candles lb ↔
      sp.index < candles.length ∧ sp ∈ swingsAt candles lb sp.index := by
  constructor
  · intro h
    simp only [_findSwingPoints] at h
    rw [List.mem_flatten] at h
    obtain ⟨l, hl, hm⟩ := h
    rw [List.mem_map] at hl
    obtain ⟨j, hj, rfl⟩ := hl
    have hidx := swingsAt_index hm
    subst hidx
    exact ⟨List.mem_range.mp hj, hm⟩
  · intro ⟨hn, hm⟩
    simp only [_findSwingPoints]
    rw [List.mem_flatten]
    exact ⟨swingsAt candles lb sp.index,
      List.mem_map_of_mem _ (List.mem_range.mpr hn), hm⟩

/-- Claim C4, amended: for an index with `lookback` candles on both sides,
the detector emits a swing high at `i` iff `candles[i].h` is *a* maximum of
the symmetric window (`>=` every high in the window, not necessarily
unique), and a swing low at `i` iff `candles[i].l` is a minimum; the same
candle may be both. -/
theorem swing_detector_spec (candles : List Candle) (lb i : ℕ)
    (h1 : lb ≤ i) (h2 : i + lb < candles.length) :
    ((∃ pr, (⟨.high, pr, i⟩ : SwingPoint) ∈ _findSwingPoints candles lb) ↔
      ∀ c ∈ windowAt candles lb i, c.h ≤ (candles.getD i default).h) ∧
    ((∃ pr, (⟨.low, pr, i⟩ : SwingPoint) ∈ _findSwingPoints candles lb) ↔
      ∀ c ∈ windowAt candles lb i, (candles.getD i default).l ≤ c.l) := by
  have hin : i < candles.length := lt_of_le_of_lt (Nat.le_add_right i lb) h2
  constructor
  · constructor
    · rintro ⟨pr, hp⟩
      have hm := (mem_findSwingPoints.mp hp).2
      simp only [swingsAt, if_pos (And.intro h1 h2)] at hm
      rcases List.mem_append.mp hm with h' | h'
      · split at h'
        · rename_i hall
          intro c hc
          have := List.all_eq_true.mp hall c hc
          exact of_decide_eq_true this
        · simp at h'
      · split at h' <;> simp at h'
    · intro hall
      refine ⟨(candles.getD i default).h, mem_findSwingPoints.mpr ⟨hin, ?_⟩⟩
      simp only [swingsAt, if_pos (And.intro h1 h2)]
      refine List.mem_append.mpr (Or.inl ?_)
      rw [if_pos]
      · exact List.mem_singleton.mpr rfl
      · exact List.all_eq_true.mpr fun c hc => decide_eq_true (hall c hc)
  · constructor
    · rintro ⟨pr, hp⟩
      have hm := (mem_findSwingPoints.mp hp).2
      simp only [swingsAt, if_pos (And.intro h1 h2)] at hm
      rcases List.mem_append.mp hm with h' | h'
      · split at h' <;> simp at h'
      · split at h'
        · rename_i hall
          intro c hc
          have := List.all_eq_true.mp hall c hc
          exact of_decide_eq_true this
        · simp at h'
    · intro hall
      refine ⟨(candles.getD i default).l, mem_findSwingPoints.mpr ⟨hin, ?_⟩⟩
      simp only [swingsAt, if_pos (And.intro h1 h2)]
      refine List.mem_append.mpr (Or.inr ?_)
      rw [if_pos]
      · exact List.mem_singleton.mpr rfl
      · exact List.all_eq_true.mpr fun c hc => decide_eq_true (hall c hc)

/-- Counterexample to claim C4 as stated: on three identical candles with
lookback 1, index 1 is emitted as a swing high although its high is not the
*unique* maximum of the window. -/
theorem swing_detector_cex :
    (⟨.high, 5, 1⟩ : SwingPoint) ∈ _findSwingPoints threeFlat 1 ∧
      ¬ uniqueMaxHighAt threeFlat 1 1 := by
  decide

set_option maxRecDepth 400000 in
unseal Rat.add Rat.mul Rat.sub Rat.inv Rat.ofScientific in
/-- Witness for the amended C4 at the 110-peak of the Wyckoff test series. -/
theorem swing_detector_spec_witness :
    3 ≤ 6 ∧ 6 + 3 < wyckCandles.length ∧
    (((∃ pr, (⟨.high, pr, 6⟩ : SwingPoint) ∈ _findSwingPoints wyckCandles 3) ↔
        ∀ c ∈ windowAt wyckCandles 3 6, c.h ≤ (wyckCandles.getD 6 default).h) ∧
      ((∃ pr, (⟨.low, pr, 6⟩ : SwingPoint) ∈ _findSwingPoints wyckCandles 3) ↔
        ∀ c ∈ windowAt wyckCandles 3 6, (wyckCandles.getD 6 default).l ≤ c.l)) :=
  ⟨by decide, by decide, swing_detector_spec wyckCandles 3 6 (by decide) (by decide)⟩

/-- An element accessed with a default inside the list bounds belongs to
the list. -/
theorem getD_mem_of_lt {α : Type} {l : List α} {n : ℕ} {d : α}
    (h : n < l.length) : l.getD n d ∈ l := by
  rw [List.getD_eq_getElem l d h]
  exact List.getElem_mem h

/-- On a constant-price series, every interior index is pushed as both a
swing high and a swing low — the detector's comparisons are non-strict. -/
theorem flat_swingsAt {candles : List Candle} {p : ℚ} (hf : isFlatSeries candles p)
    {lb i : ℕ} (h1 : lb ≤ i) (h2 : i + lb < candles.length) :
    swingsAt candles lb i = [⟨.high, p, i⟩, ⟨.low, p, i⟩] := by
  have hin : i < candles.length := lt_of_le_of_lt (Nat.le_add_right i lb) h2
  have hci := hf _ (getD_mem_of_lt (d := default) hin)
  have hwin : ∀ c ∈ windowAt candles lb i, c.h = p ∧ c.l = p := by
    intro c hc
    have hcmem : c ∈ candles := List.drop_subset _ _ (List.mem_of_mem_take hc)
    exact ⟨(hf c hcmem).2.1, (hf c hcmem).2.2.1⟩
  simp only [swingsAt, if_pos (And.intro h1 h2)]
  rw [if_pos, if_pos, hci.2.1, hci.2.2.1]
  · exact rfl
  · exact List.all_eq_true.mpr fun c hc =>
      decide_eq_true (le_of_eq (hci.2.2.1.trans ((hwin c hc).2.symm)))
  · exact List.all_eq_true.mpr fun c hc =>
      decide_eq_true (le_of_eq ((hwin c hc).1.trans hci.2.1.symm))

/-- Outside the loop bounds nothing is pushed. -/
theorem swingsAt_eq_nil {candles : List Candle} {lb i : ℕ}
    (h : ¬ (lb ≤ i ∧ i + lb < candles.length)) : swingsAt candles lb i = [] := by
  simp only [swingsAt, if_neg h]

/-- On a constant-price series the swing list is exactly one high/low pair
per interior index. -/
theorem flat_findSwingPoints {candles : List Candle} {p : ℚ}
    (hf : isFlatSeries candles p) {lb : ℕ} (hn : 2 * lb + 10 ≤ candles.length) :
    _findSwingPoints candles lb =
      ((List.range' lb (candles.length - 2 * lb)).map
        (fun i => [(⟨.high, p, i⟩ : SwingPoint), ⟨.low, p, i⟩])).flatten := by
  have e1 := List.range'_append 0 lb (candles.length - lb) 1
  rw [Nat.zero_add, Nat.one_mul,
    show candles.length - lb + lb = candles.length from by omega] at e1
  have e2 := List.range'_append lb (candles.length - 2 * lb) lb 1
  rw [show lb + 1 * (candles.length - 2 * lb) = candles.length - lb from by omega,
    show lb + (candles.length - 2 * lb) = candles.length - lb from by omega] at e2
  rw [_findSwingPoints, List.range_eq_range', ← e1, ← e2, List.map_append,
    List.map_append, List.flatten_append, List.flatten_append]
  have hside1 : ((List.range' 0 lb).map (swingsAt candles lb)).flatten = [] := by
    rw [List.flatten_eq_nil_iff]
    intro l hl
    obtain ⟨i, hi, rfl⟩ := List.mem_map.mp hl
    have := List.mem_range'_1.mp hi
    exact swingsAt_eq_nil (by omega)
  have hside2 : ((List.range' (candles.length - lb) lb).map (swingsAt candles lb)).flatten = [] := by
    rw [List.flatten_eq_nil_iff]
    intro l hl
    obtain ⟨i, hi, rfl⟩ := List.mem_map.mp hl
    have := List.mem_range'_1.mp hi
    exact swingsAt_eq_nil (by omega)
  have hmid : (List.range' lb (candles.length - 2 * lb)).map (swingsAt candles lb) =
      (List.range' lb (candles.length - 2 * lb)).map
        (fun i => [(⟨.high, p, i⟩ : SwingPoint), ⟨.low, p, i⟩]) := by
    refine List.map_congr_left ?_
    intro i hi
    have := List.mem_range'_1.mp hi
    exact flat_swingsAt hf (by omega) (by omega)
  rw [hside1, hside2, hmid]
  simp

/-- Filtering the flat swing list for highs keeps one point per index. -/
theorem flat_filter_highs {l : List ℕ} {p : ℚ} :
    (((l.map (fun i => [(⟨.high, p, i⟩ : SwingPoint), ⟨.low, p, i⟩])).flatten).filter
      (fun sp => decide (sp.type = .high))) = l.map (fun i => ⟨.high, p, i⟩) := by
  induction l with
  | nil => rfl
  | cons a l ih => simp_all [List.filter]

/-- Filtering the flat swing list for lows keeps one point per index. -/
theorem flat_filter_lows {l : List ℕ} {p : ℚ} :
    (((l.map (fun i => [(⟨.high, p, i⟩ : SwingPoint), ⟨.low, p, i⟩])).flatten).filter
      (fun sp => decide (sp.type = .low))) = l.map (fun i => ⟨.low, p, i⟩) := by
  induction l with
  | nil => rfl
  | cons a l ih => simp_all [List.filter]

/-- The flat swing list has two entries per interior index. -/
theorem flat_pairs_length {l : List ℕ} {p : ℚ} :
    ((l.map (fun i => [(⟨.high, p, i⟩ : SwingPoint), ⟨.low, p, i⟩])).flatten).length =
      2 * l.length := by
  induction l with
  | nil => rfl
  | cons a l ih => simp_all; omega

/-- On a flat series long enough to pass the candle-count gate, the
classifier succeeds and reports a SIDEWAYS structure: the last two highs
and last two lows all carry the same price, so every strict comparison
fails. -/
theorem flat_structure {candles : List Candle} {p : ℚ} (hf : isFlatSeries candles p)
    {lb : ℕ} (hn : 2 * lb + 10 ≤ candles.length) :
    ∃ st, _findMarketStructure (_findSwingPoints candles lb) = .ok st ∧
      st.bias = .SIDEWAYS := by
  have hsw := flat_findSwingPoints hf hn
  have hhighs : (_findSwingPoints candles lb).filter
        (fun sp => decide (sp.type = .high)) =
      (List.range' lb (candles.length - 2 * lb)).map (fun i => ⟨.high, p, i⟩) := by
    rw [hsw]; exact flat_filter_highs
  have hlows : (_findSwingPoints candles lb).filter
        (fun sp => decide (sp.type = .low)) =
      (List.range' lb (candles.length - 2 * lb)).map (fun i => ⟨.low, p, i⟩) := by
    rw [hsw]; exact flat_filter_lows
  have hprh : ∀ sp ∈ (List.range' lb (candles.length - 2 * lb)).map
      (fun i => (⟨.high, p, i⟩ : SwingPoint)), sp.price = p := by
    intro sp hsp
    obtain ⟨i, _, rfl⟩ := List.mem_map.mp hsp
    rfl
  have hprl : ∀ sp ∈ (List.range' lb (candles.length - 2 * lb)).map
      (fun i => (⟨.low, p, i⟩ : SwingPoint)), sp.price = p := by
    intro sp hsp
    obtain ⟨i, _, rfl⟩ := List.mem_map.mp hsp
    rfl
  simp only [_findMarketStructure]
  rw [hhighs, hlows]
  set hs := (List.range' lb (candles.length - 2 * lb)).map
    (fun i => (⟨.high, p, i⟩ : SwingPoint)) with hhs
  set ls := (List.range' lb (candles.length - 2 * lb)).map
    (fun i => (⟨.low, p, i⟩ : SwingPoint)) with hls
  have len_hs : hs.length = candles.length - 2 * lb := by rw [hhs]; simp
  have len_ls : ls.length = candles.length - 2 * lb := by rw [hls]; simp
  have p0h : ((hs.drop (hs.length - 2)).getD 0 default).price = p := by
    refine hprh _ (List.drop_subset _ _ (getD_mem_of_lt ?_))
    rw [List.length_drop]; omega
  have p1h : ((hs.drop (hs.length - 2)).getD 1 default).price = p := by
    refine hprh _ (List.drop_subset _ _ (getD_mem_of_lt ?_))
    rw [List.length_drop]; omega
  have p0l : ((ls.drop (ls.length - 2)).getD 0 default).price = p := by
    refine hprl _ (List.drop_subset _ _ (getD_mem_of_lt ?_))
    rw [List.length_drop]; omega
  have p1l : ((ls.drop (ls.length - 2)).getD 1 default).price = p := by
    refine hprl _ (List.drop_subset _ _ (getD_mem_of_lt ?_))
    rw [List.length_drop]; omega
  rw [if_neg (by omega : ¬ (hs.length < 2 ∨ ls.length < 2))]
  rw [if_neg (by rintro ⟨h1, -⟩; rw [p0h, p1h] at h1; exact lt_irrefl p h1)]
  rw [if_neg (by rintro ⟨h1, -⟩; rw [p0l, p1l] at h1; exact lt_irrefl p h1)]
  rw [if_neg (by rintro ⟨h1, -⟩; rw [p0l, p1l] at h1; exact lt_irrefl p h1)]
  rw [if_neg (by rintro ⟨h1, -⟩; rw [p0h, p1h] at h1; exact lt_irrefl p h1)]
  exact ⟨_, rfl, rfl⟩

set_option maxRecDepth 400000 in
unseal Rat.add Rat.mul Rat.sub Rat.inv Rat.ofScientific in
/-- Counterexample to claim C5 as stated: thirty constant-price candles on
`1h` do *not* produce the insufficient-swings error — the non-strict swing
comparison makes every interior candle a swing, and the analysis succeeds
(sideways, with empty zone and plan lists). -/
theorem flat_series_cex :
    analyze flatCandles "1h" balancedSettings ≠ .error (.insufficientSwings "1h") ∧
    (okAnalyses (analyze flatCandles "1h" balancedSettings)).length = 1 := by
  decide

/-- Claim C5, amended: a constant-price series never crashes (the embedding
is total); with fewer than `2·lookback + 10` candles it yields the
insufficient-data error, and otherwise the analysis *succeeds* with a
SIDEWAYS bias — the insufficient-swings error of the claim never occurs,
because the non-strict comparisons make every interior candle a swing. -/
theorem analyze_flat (candles : List Candle) (p : ℚ) (tf : String) (s : Settings)
    (hflat : isFlatSeries candles p) :
    (candles.length < 2 * lookbackFor tf + 10 →
      analyze candles tf s = .error (.insufficientData tf)) ∧
    (2 * lookbackFor tf + 10 ≤ candles.length →
      ∃ a, analyze candles tf s = .ok a ∧ a.bias = .SIDEWAYS) := by
  constructor
  · intro h
    unfold analyze
    rw [if_pos (by omega)]
  · intro h
    obtain ⟨st, hst, hb⟩ := flat_structure hflat h
    refine ⟨buildAnalysis candles tf s st, ?_, ?_⟩
    · unfold analyze
      rw [if_neg (by omega)]
      have hsw : ¬ ((_findSwingPoints candles (lookbackFor tf)).length < 4) := by
        rw [flat_findSwingPoints hflat h, flat_pairs_length, List.length_range']
        omega
      simp only
      rw [if_neg hsw, hst]
    · rw [(buildAnalysis_structure candles tf s st).1, hb]

set_option maxRecDepth 400000 in
unseal Rat.add Rat.mul Rat.sub Rat.inv Rat.ofScientific in
/-- Witness for the amended C5 at two concrete constant series. -/
theorem analyze_flat_witness :
    analyze flat19 "1h" balancedSettings = .error (.insufficientData "1h") ∧
    (∃ a, analyze flatCandles "1h" balancedSettings = .ok a ∧ a.bias = .SIDEWAYS) :=
  ⟨(analyze_flat flat19 102 "1h" balancedSettings (by decide)).1 (by decide),
   (analyze_flat flatCandles 102 "1h" balancedSettings (by decide)).2 (by decide)⟩

/-- Every successful structure classification carries both major swings;
the sideways branch stores the *earlier* of the two most recent highs and
lows (the `lastHigh`/`lastLow` variables, i.e. element 0 of the final
two-element slice). -/
theorem findMarketStructure_majors {swings : List SwingPoint} {st : MarketStructure}
    (h : _findMarketStructure swings = .ok st) :
    st.majorHigh.isSome = true ∧ st.majorLow.isSome = true ∧
      (st.bias = .SIDEWAYS →
        st.majorHigh = some (((swings.filter fun sp => decide (sp.type = .high)).drop
          ((swings.filter fun sp => decide (sp.type = .high)).length - 2)).getD 0 default) ∧
        st.majorLow = some (((swings.filter fun sp => decide (sp.type = .low)).drop
          ((swings.filter fun sp => decide (sp.type = .low)).length - 2)).getD 0 default)) := by
  simp only [_findMarketStructure] at h
  split_ifs at h
  all_goals
    first
    | exact (Except.noConfusion h)
    | (rw [Except.ok.injEq] at h
       subst h
       refine ⟨rfl, rfl, fun hb => ?_⟩
       first
       | exact ⟨rfl, rfl⟩
       | simp at hb)

/-- Claim C10, amended: on every successful analysis both `majorHigh` and
`majorLow` are defined, regardless of bias; the sideways case stores the
*second-most-recent* high and low (not the most recent ones, because of the
`slice(-2)` destructuring order); consequently the short-circuit branch of
the zone detector — recognisable by its `profileUsed = "unknown"` debug
stamp — is unreachable from `analyze`. -/
theorem majors_always_defined (candles : List Candle) (tf : String) (s : Settings) :
    (∀ a ∈ okAnalyses (analyze candles tf s),
      a.majorHigh.isSome = true ∧ a.majorLow.isSome = true) ∧
    (∀ (candles' : List Candle) (st : MarketStructure) (cp : ℚ) (tf' : String)
      (s' : Settings), st.majorHigh.isSome = true → st.majorLow.isSome = true →
      (_findEnhancedPointsOfInterest candles' st cp tf' s').debugInfo.profileUsed ≠
        "unknown") ∧
    (∀ (swings : List SwingPoint) (st : MarketStructure),
      _findMarketStructure swings = .ok st → st.bias = .SIDEWAYS →
      st.majorHigh = some (((swings.filter fun sp => decide (sp.type = .high)).drop
        ((swings.filter fun sp => decide (sp.type = .high)).length - 2)).getD 0 default) ∧
      st.majorLow = some (((swings.filter fun sp => decide (sp.type = .low)).drop
        ((swings.filter fun sp => decide (sp.type = .low)).length - 2)).getD 0 default)) := by
  refine ⟨?_, ?_, ?_⟩
  · intro a ha
    obtain ⟨st, hst, rfl⟩ := analyze_ok_shape ha
    obtain ⟨h1, h2, -⟩ := findMarketStructure_majors hst
    obtain ⟨-, hmh, hml⟩ := buildAnalysis_structure candles tf s st
    rw [hmh, hml]
    exact ⟨h1, h2⟩
  · intro candles' st cp tf' s' hmh hml
    obtain ⟨mh, hmh'⟩ := Option.isSome_iff_exists.mp hmh
    obtain ⟨ml, hml'⟩ := Option.isSome_iff_exists.mp hml
    simp only [_findEnhancedPointsOfInterest]
    split
    · rename_i mh' ml' heq1 heq2
      cases s'.tradingProfile <;> simp [profileName]
    · rename_i hnone
      exact (hnone mh ml hmh' hml').elim
  · intro swings st hst hb
    exact (findMarketStructure_majors hst).2.2 hb

set_option maxRecDepth 400000 in
unseal Rat.add Rat.mul Rat.sub Rat.inv Rat.ofScientific in
/-- Counterexample to claim C10's parenthetical: on the flat series the
successful sideways analysis stores the high at index 23 as `majorHigh`,
while the most recent detected high swing is at index 24. -/
theorem majors_cex :
    (okAnalyses (analyze flatCandles "1h" balancedSettings)).map
        (fun a => (a.bias, a.majorHigh)) =
      [(Bias.SIDEWAYS, some ⟨.high, 102, 23⟩)] ∧
    ((_findSwingPoints flatCandles 5).filter fun sp => decide (sp.type = .high)).getLast? =
      some ⟨.high, 102, 24⟩ := by
  decide

set_option maxRecDepth 400000 in
unseal Rat.add Rat.mul Rat.sub Rat.inv Rat.ofScientific in
/-- Witness for the amended C10 on the flat test run. -/
theorem majors_always_defined_witness :
    (((okAnalyses (analyze flatCandles "1h" balancedSettings)).getD 0
        default).majorHigh.isSome = true ∧
      ((okAnalyses (analyze flatCandles "1h" balancedSettings)).getD 0
        default).majorLow.isSome = true) ∧
    (_findEnhancedPointsOfInterest flatCandles narrowRangeAnalysis.toMarketStructure
        104 "1h" balancedSettings).debugInfo.profileUsed ≠ "unknown" := by
  obtain ⟨h1, h2, h3⟩ := majors_always_defined flatCandles "1h" balancedSettings
  exact ⟨h1 _ (by decide),
    h2 flatCandles narrowRangeAnalysis.toMarketStructure 104 "1h" balancedSettings
      (by decide) (by decide)⟩
